import Mathlib

/-!
# datastore-mapper: the namespace split and namespace completion handlers

A shallow embedding of `namespace_handler.go` and of the part of `job_state.go`
it uses.  The handlers are straight-line code over collaborators that are not
part of the sources (the lock protocol, the storage layer, the task queue, the
`common` timing helper and the methods of `namespaceState`); every such
collaborator is a parameter of the embedding (a field of `Collaborators` or of
`View`), so each theorem holds for every behaviour of the collaborators.

Go `int` values are embedded as `Int`; the one arithmetic operation of the
handlers, `j.NamespacesSuccessful++`, wraps at 64 bits (`wrapInt`).
-/

namespace Mapper

/-! ## Data model -/

/-- Go `error` values as the handlers see them: a `*LockError` carries the
response code to use (`serr.Response`), any other error only its text. -/
inductive Error where
  | LockError (Response : Int) (msg : String)
  | other (msg : String)
  deriving DecidableEq, Repr

set_option linter.dupNamespace false in
/-- The text of an error, `err.Error()`. -/
def Error.Error : Error → String
  | .LockError _ msg => msg
  | .other msg => msg

/-- `http.StatusOK`. -/
def StatusOK : Int := 200

/-- `http.StatusInternalServerError`. -/
def StatusInternalServerError : Int := 500

/-- The value of a Go `int` (64 bits) holding the integer `x`: `x` wrapped into
the range from `-2^63` to `2^63 - 1`. -/
def wrapInt (x : Int) : Int :=
  (x + 9223372036854775808) % 18446744073709551616 - 9223372036854775808

/-- A datastore key as built by `datastore.NewKey(c, kind, stringID, 0, nil)`. -/
structure Key where
  kind : String
  stringID : String
  deriving DecidableEq, Repr

/-- `datastore.NewKey(c, kind, stringID, 0, nil)`. -/
def NewKey (kind stringID : String) : Key := ⟨kind, stringID⟩

/-- Modelled from the spec: the embedded `lock` struct, whose declaration is not
among the sources ("Lock state: sequence counter + in-flight request identity").
`RequestID` is the field the handlers assign; `state` stands for the rest of the
lock-protocol state, which the handlers never touch. -/
structure lock (L : Type) where
  RequestID : String
  state : L
  deriving DecidableEq, Repr

/-- The struct `jobState` of `job_state.go`.  `C` is the embedded `common`
struct, `L` the lock-protocol state, `J` and `Q` the types of the job processor
and of the query, all declared outside the sources. -/
structure jobState (C L J Q : Type) where
  common : C
  lock : lock L
  Job : J
  Query : Q
  Bucket : String
  Abort : Bool
  Shards : Int
  Iterating : Bool
  NamespacesTotal : Int
  NamespacesSuccessful : Int
  NamespacesFailed : Int
  deriving DecidableEq, Repr

/-- Modelled from the spec: the struct `namespaceState`, whose declaration is not
among the sources ("Namespace{id, job_id, shards_total, shards_successful,
shards_failed, request_id, timing, lock}").  `id`, `queue` and `job` are the
unexported fields the handlers assign after the lock is validated. -/
structure namespaceState (C L J Q : Type) where
  common : C
  lock : lock L
  ShardsTotal : Int
  ShardsSuccessful : Int
  ShardsFailed : Int
  id : String
  queue : String
  job : Option (jobState C L J Q)
  deriving DecidableEq, Repr

/-- `jobKind` of `job_state.go`. -/
def jobKind : String := "job"

/-- `namespaceURL` of `namespace_handler.go`. -/
def namespaceURL : String := "/namespace"

/-- `namespaceCompleteURL` of `namespace_handler.go`. -/
def namespaceCompleteURL : String := "/namespace/complete"

/-- The task returned by a call `NewLockTask(key, entity, path, nil)`.  The
function is not among the sources; its task is identified by the call that
built it: the key, the entity as it was passed, and the path. -/
structure LockTask (C L J Q : Type) where
  key : Key
  entity : namespaceState C L J Q
  path : String
  deriving DecidableEq, Repr

/-- The calls a handler makes, after the lock is validated, that can change an
entity, the task queue or the lock; a handler run is observed through the list
of these calls in program order. -/
inductive Call (C L J Q : Type) where
  /-- Call `ns.split(c)` on the given local namespace state. -/
  | split (ns : namespaceState C L J Q)
  /-- Call `ns.rollup(c)` on the given local namespace state. -/
  | rollup (ns : namespaceState C L J Q)
  /-- Call `complete()` on the entity stored under the key. -/
  | complete (key : Key)
  /-- Call `taskqueue.Add(tc, t, queue)`. -/
  | Add (t : LockTask C L J Q) (queue : String)
  /-- Call `storage.Put(tc, k, fresh)`. -/
  | Put (key : Key) (fresh : namespaceState C L J Q)
  /-- Call `storage.PutMulti(tc, keys, vals)` with `vals = {fresh, j}`. -/
  | PutMulti (keys : List Key) (fresh : namespaceState C L J Q) (j : jobState C L J Q)
  /-- Call `ClearLock(c, k, ns, success)`. -/
  | ClearLock (key : Key) (ns : namespaceState C L J Q) (success : Bool)
  deriving DecidableEq, Repr

/-- What one attempt of a transaction sees of the storage layer and of the task
queue: the result of each call the closure can make, and of the commit. -/
structure View (C L J Q : Type) where
  Get : Key → Except Error (namespaceState C L J Q)
  GetMulti : List Key → Except Error (namespaceState C L J Q × jobState C L J Q)
  Add : LockTask C L J Q → String → Option Error
  Put : Key → namespaceState C L J Q → Option Error
  PutMulti : List Key → namespaceState C L J Q → jobState C L J Q → Option Error
  commit : Option Error

/-- One run of a transaction closure: the error it returns (`none` for `nil`)
and the calls it made. -/
structure Run (C L J Q : Type) where
  err : Option Error
  calls : List (Call C L J Q)
  deriving DecidableEq, Repr

/-- Package configuration (`config`), declared outside the sources. -/
structure Config where
  DatastorePrefix : String
  BasePath : String
  namespaceKind : String

/-! ## Collaborators -/

/-- An inbound delivery, as far as the handlers look at it: the HTTP method, and
the headers `ParseLock` reads. -/
structure Request where
  Method : String
  Header : List (String × String)
  deriving DecidableEq, Repr

/-- The collaborators of the handlers that are not among the sources, each given
by what it returns.  `GetLock` yields the namespace state it loaded into `ns`;
`NewLockTask` yields the lock it leaves on the entity it is passed (by pointer;
the lock state belongs to the lock protocol, which may advance the sequence
when it builds a task), its task being the `LockTask` of the call; `split` and
`rollup` yield the local state they leave and the error they return; `complete`
and `commonRollup` are the methods `complete()` and `rollup(r)` of the embedded
`common` struct; `attempts` lists, in order, what each attempt made by
`storage.RunInTransaction` sees. -/
structure Collaborators (C L J Q : Type) where
  config : Config
  ParseLock : Request → String × Int × String × Option Error
  GetLock : Key → Int → Except Error (namespaceState C L J Q)
  NewLockTask : Key → namespaceState C L J Q → String → lock L
  Get : Key → Except Error (jobState C L J Q)
  jobID : namespaceState C L J Q → String
  split : namespaceState C L J Q → namespaceState C L J Q × Option Error
  rollup : namespaceState C L J Q → namespaceState C L J Q × Option Error
  copyFrom : namespaceState C L J Q → namespaceState C L J Q → namespaceState C L J Q
  complete : C → C
  commonRollup : C → C → C
  attempts : List (View C L J Q)

/-! ## The split transaction -/

/-- Lines 86-87 of `namespace_handler.go`: the two assignments to `fresh`. -/
def splitFresh {C L J Q : Type} (ns fresh : namespaceState C L J Q) :
    namespaceState C L J Q :=
  { fresh with ShardsTotal := ns.ShardsTotal, lock := { fresh.lock with RequestID := "" } }

/-- Line 91 of `namespace_handler.go`, the task: `fresh` is the entity passed to
`NewLockTask`. -/
def completionTask {C L J Q : Type} (env : Collaborators C L J Q) (k : Key)
    (fresh : namespaceState C L J Q) : LockTask C L J Q :=
  ⟨k, fresh, env.config.BasePath ++ namespaceCompleteURL⟩

/-- Modelled from the spec: what `NewLockTask`, which is not among the sources,
does to the entity it receives by pointer at line 91 ("Lock state: sequence
counter + in-flight request identity, owned exclusively by the Lock Protocol"):
the lock of the entity becomes the one the collaborator yields, every other
field is kept. -/
def afterNewLockTask {C L J Q : Type} (env : Collaborators C L J Q) (k : Key)
    (fresh : namespaceState C L J Q) : namespaceState C L J Q :=
  { fresh with lock := env.NewLockTask k fresh (env.config.BasePath ++ namespaceCompleteURL) }

/-- The closure passed to `storage.RunInTransaction` by `namespaceHandler`
(lines 79-103): `k` and `queue` are the key and queue of the delivery, `ns` the
handler's local namespace state after `ns.split(c)`. -/
def splitTxn {C L J Q : Type} (env : Collaborators C L J Q) (k : Key) (queue : String)
    (ns : namespaceState C L J Q) (v : View C L J Q) : Run C L J Q :=
  match v.Get k with
  | .error err => ⟨some err, []⟩
  | .ok fresh =>
    let fresh := splitFresh ns fresh
    if fresh.ShardsSuccessful = fresh.ShardsTotal then
      let t := completionTask env k fresh
      let fresh := afterNewLockTask env k fresh
      match v.Add t queue with
      | some err => ⟨some err, [.Add t queue]⟩
      | none =>
        match v.Put k fresh with
        | some err => ⟨some err, [.Add t queue, .Put k fresh]⟩
        | none => ⟨none, [.Add t queue, .Put k fresh]⟩
    else
      match v.Put k fresh with
      | some err => ⟨some err, [.Put k fresh]⟩
      | none => ⟨none, [.Put k fresh]⟩

/-! ## The transaction runner -/

/-- The outcome of `storage.RunInTransaction`: the error returned, every call
made by the closure over all attempts, and the calls of the attempt that was
committed (none when the transaction failed). -/
structure TxnResult (C L J Q : Type) where
  err : Option Error
  calls : List (Call C L J Q)
  committed : List (Call C L J Q)
  deriving DecidableEq, Repr

/-- `datastore.ErrConcurrentTransaction`, returned when no attempt is left. -/
def ErrConcurrentTransaction : Error := .other "datastore: concurrent transaction"

/-- Why an attempt fails, if it does: the error returned by the closure, or
else the error of the commit. -/
def attemptFailure {C L J Q : Type} (r : Run C L J Q) (v : View C L J Q) : Option Error :=
  match r.err with
  | some err => some err
  | none => v.commit

/-- Modelled from the spec: `storage.RunInTransaction`, which is not among the
sources ("transactional execution with a bounded attempt count"; "Failure at
any point aborts the transaction (automatically retried up to a bounded attempt
count by the storage layer)").  The closure runs against each attempt in turn;
an attempt whose closure returns `nil` and whose commit succeeds ends the
transaction with its calls committed; a failed attempt is rolled back, and its
error is returned when it was the last attempt. -/
def RunInTransaction {C L J Q : Type} (f : View C L J Q → Run C L J Q) :
    List (View C L J Q) → TxnResult C L J Q
  | [] => ⟨some ErrConcurrentTransaction, [], []⟩
  | [v] =>
    match attemptFailure (f v) v with
    | none => ⟨none, (f v).calls, (f v).calls⟩
    | some err => ⟨some err, (f v).calls, []⟩
  | v :: u :: us =>
    match attemptFailure (f v) v with
    | none => ⟨none, (f v).calls, (f v).calls⟩
    | some _ =>
      let rest := RunInTransaction f (u :: us)
      ⟨rest.err, (f v).calls ++ rest.calls, rest.committed⟩

/-- The function `getJob` of `job_state.go`. -/
def getJob {C L J Q : Type} (env : Collaborators C L J Q) (id : String) :
    Except Error (jobState C L J Q) :=
  let key := NewKey (env.config.DatastorePrefix ++ jobKind) id
  match env.Get key with
  | .error err => .error err
  | .ok job => .ok job

/-- What a handler run leaves behind: the status passed to `w.WriteHeader`
(`none` when it is never called), the bytes passed to `w.Write`, the calls made
in program order, and the calls committed by the transaction. -/
structure Outcome (C L J Q : Type) where
  status : Option Int
  body : String
  calls : List (Call C L J Q)
  committed : List (Call C L J Q)
  deriving DecidableEq, Repr

/-! ## The split handler -/

/-- The function `namespaceHandler` of `namespace_handler.go`. -/
def namespaceHandler {C L J Q : Type} (env : Collaborators C L J Q) (r : Request) :
    Outcome C L J Q :=
  if r.Method ≠ "POST" then ⟨none, "", [], []⟩
  else
    let (id, seq, queue, _) := env.ParseLock r
    let k := NewKey (env.config.DatastorePrefix ++ env.config.namespaceKind) id
    match env.GetLock k seq with
    | .error err =>
      match err with
      | .LockError Response _ => ⟨some Response, err.Error, [], []⟩
      | .other _ => ⟨some StatusInternalServerError, err.Error, [], []⟩
    | .ok ns =>
      let ns := { ns with id := id, queue := queue }
      match getJob env (env.jobID ns) with
      | .error err =>
        ⟨some StatusInternalServerError, err.Error, [.ClearLock k ns false], []⟩
      | .ok j =>
        if j.Abort then ⟨some StatusOK, "", [], []⟩
        else
          let ns := { ns with job := some j }
          let (ns', err) := env.split ns
          match err with
          | some err =>
            ⟨some StatusInternalServerError, err.Error,
              [.split ns, .ClearLock k ns' false], []⟩
          | none =>
            let t := RunInTransaction (splitTxn env k queue ns') env.attempts
            match t.err with
            | some err =>
              ⟨some StatusInternalServerError, err.Error,
                [.split ns] ++ t.calls ++ [.ClearLock k ns' false], []⟩
            | none => ⟨some StatusOK, "", [.split ns] ++ t.calls, t.committed⟩

/-! ## The completion handler -/

/-- Lines 187-194 of `namespace_handler.go`: the closure's update of the job
`j` it re-read, given the handler's local namespace state `ns`; `jk` is the key
of the job.  Returns the updated job and the `complete()` call if it was
made. -/
def rollupJob {C L J Q : Type} (env : Collaborators C L J Q) (jk : Key)
    (ns : namespaceState C L J Q) (j : jobState C L J Q) :
    jobState C L J Q × List (Call C L J Q) :=
  let j := { j with NamespacesSuccessful := wrapInt (j.NamespacesSuccessful + 1) }
  let j := { j with common := env.commonRollup j.common ns.common }
  if j.NamespacesSuccessful = j.NamespacesTotal ∧ j.Iterating = false then
    ({ j with common := env.complete j.common, lock := { j.lock with RequestID := "" } },
      [.complete jk])
  else (j, [])

/-- The closure passed to `storage.RunInTransaction` by
`namespaceCompleteHandler` (lines 174-200): `k` and `jk` are the keys of the namespace
and of the job, `ns` the handler's local namespace state after
`ns.rollup(c)`, `ns.complete()` and the clearing of its `RequestID`. -/
def completeTxn {C L J Q : Type} (env : Collaborators C L J Q) (k jk : Key)
    (ns : namespaceState C L J Q) (v : View C L J Q) : Run C L J Q :=
  let keys := [k, jk]
  match v.GetMulti keys with
  | .error err => ⟨some err, []⟩
  | .ok (fresh, j) =>
    if j.Abort then ⟨none, []⟩
    else
      let fresh := env.copyFrom fresh ns
      let (j, cs) := rollupJob env jk ns j
      match v.PutMulti keys fresh j with
      | some err => ⟨some err, cs ++ [.PutMulti keys fresh j]⟩
      | none => ⟨none, cs ++ [.PutMulti keys fresh j]⟩

/-- Lines 169-170 of `namespace_handler.go`: `ns.complete()` and the clearing of
the local `RequestID`. -/
def completeLocal {C L J Q : Type} (env : Collaborators C L J Q)
    (ns : namespaceState C L J Q) : namespaceState C L J Q :=
  { ns with common := env.complete ns.common, lock := { ns.lock with RequestID := "" } }

/-- The function `namespaceCompleteHandler` of `namespace_handler.go`. -/
def namespaceCompleteHandler {C L J Q : Type} (env : Collaborators C L J Q)
    (r : Request) : Outcome C L J Q :=
  if r.Method ≠ "POST" then ⟨none, "", [], []⟩
  else
    let (id, seq, queue, _) := env.ParseLock r
    let k := NewKey (env.config.DatastorePrefix ++ env.config.namespaceKind) id
    match env.GetLock k seq with
    | .error err =>
      match err with
      | .LockError Response _ => ⟨some Response, err.Error, [], []⟩
      | .other _ => ⟨some StatusInternalServerError, err.Error, [], []⟩
    | .ok ns =>
      let ns := { ns with id := id, queue := queue }
      match getJob env (env.jobID ns) with
      | .error err =>
        ⟨some StatusInternalServerError, err.Error, [.ClearLock k ns false], []⟩
      | .ok j =>
        if j.Abort then ⟨some StatusOK, "", [], []⟩
        else
          let ns := { ns with job := some j }
          let (ns', err) := env.rollup ns
          match err with
          | some err =>
            ⟨some StatusInternalServerError, err.Error,
              [.rollup ns, .ClearLock k ns' false], []⟩
          | none =>
            let ns'' := completeLocal env ns'
            let jk := NewKey (env.config.DatastorePrefix ++ jobKind) (env.jobID ns'')
            let t := RunInTransaction (completeTxn env k jk ns'') env.attempts
            match t.err with
            | some err =>
              ⟨some StatusInternalServerError, err.Error,
                [.rollup ns, .complete k] ++ t.calls ++ [.ClearLock k ns'' false], []⟩
            | none =>
              ⟨some StatusOK, "", [.rollup ns, .complete k] ++ t.calls, t.committed⟩

/-! ## Observing runs -/

/-- Whether a call is a `taskqueue.Add`. -/
def Call.isAdd {C L J Q : Type} : Call C L J Q → Bool
  | .Add _ _ => true
  | _ => false

/-- Whether a call writes an entity (`storage.Put` or `storage.PutMulti`). -/
def Call.isPut {C L J Q : Type} : Call C L J Q → Bool
  | .Put _ _ => true
  | .PutMulti _ _ _ => true
  | _ => false

/-- Whether a call is a `ClearLock`. -/
def Call.isClearLock {C L J Q : Type} : Call C L J Q → Bool
  | .ClearLock _ _ _ => true
  | _ => false

/-- The job stored once the calls have been carried out on a store that held
`j`: the job of the last `PutMulti`. -/
def storedJob {C L J Q : Type} (calls : List (Call C L J Q)) (j : jobState C L J Q) :
    jobState C L J Q :=
  calls.foldl (fun acc c => match c with
    | .PutMulti _ _ j' => j'
    | _ => acc) j

/-- An attempt that reads the given entities and in which every call and the
commit succeed. -/
def okView {C L J Q : Type} (fresh : namespaceState C L J Q) (j : jobState C L J Q) :
    View C L J Q :=
  { Get := fun _ => .ok fresh, GetMulti := fun _ => .ok (fresh, j), Add := fun _ _ => none,
    Put := fun _ _ => none, PutMulti := fun _ _ _ => none, commit := none }

/-- The completion transactions of a list of namespaces, run one after the
other against the job store: each entry gives the key of a namespace, the
handler's local state of it and its fresh state; every transaction reads the
job the previous one stored. -/
def completionRuns {C L J Q : Type} (env : Collaborators C L J Q) (jk : Key) :
    List (Key × namespaceState C L J Q × namespaceState C L J Q) → jobState C L J Q →
    List (Run C L J Q)
  | [], _ => []
  | (k, ns, fresh) :: rest, j =>
    let r := completeTxn env k jk ns (okView fresh j)
    r :: completionRuns env jk rest (storedJob r.calls j)

/-! ## Concrete data used to instantiate the theorems -/

section Examples

/-- A job with the given flags and counters. -/
def demoJob (abort iterating : Bool) (total successful failed : Int) :
    jobState Nat Nat Unit Unit :=
  { common := 0, lock := ⟨"req-j", 4⟩, Job := (), Query := (), Bucket := "", Abort := abort,
    Shards := 8, Iterating := iterating, NamespacesTotal := total,
    NamespacesSuccessful := successful, NamespacesFailed := failed }

/-- A namespace state with the given shard counters. -/
def demoNamespace (total successful failed : Int) : namespaceState Nat Nat Unit Unit :=
  { common := 1, lock := ⟨"req-ns", 7⟩, ShardsTotal := total, ShardsSuccessful := successful,
    ShardsFailed := failed, id := "", queue := "", job := none }

/-- An attempt that reads the given entities and in which every call succeeds. -/
def demoView (fresh : namespaceState Nat Nat Unit Unit) (j : jobState Nat Nat Unit Unit) :
    View Nat Nat Unit Unit := okView fresh j

/-- An attempt that reads the given namespace and in which `taskqueue.Add`
fails. -/
def demoViewAddFails (fresh : namespaceState Nat Nat Unit Unit) : View Nat Nat Unit Unit :=
  { okView fresh (demoJob false true 0 0 0) with Add := fun _ _ => some (.other "add failed") }

/-- A configuration. -/
def demoConfig : Config := ⟨"mr_", "/_ah/mapper", "namespace"⟩

/-- The key of the namespace `job1/ns1`. -/
def demoKey : Key := NewKey "mr_namespace" "job1/ns1"

/-- The key of the job `job1`. -/
def demoJobKey : Key := NewKey "mr_job" "job1"

/-- Modelled from the spec: a `NewLockTask` of the lock protocol, which is not
among the sources ("Per-entity sequence number, incremented on every
successful schedule; a delivered task carries the sequence it was scheduled
with"): the lock it leaves on the entity is the one passed with the sequence
one higher. -/
def demoNewLockTask (_ : Key) (entity : namespaceState Nat Nat Unit Unit) (_ : String) :
    lock Nat :=
  { entity.lock with state := entity.lock.state + 1 }

/-- Modelled from the spec: a `copyFrom` of `namespaceState`, which is not among
the sources ("copy the namespace's finalized counters into it"): the fresh
state takes the timing, the lock and the three shard counters of the local
state. -/
def demoCopyFrom (fresh ns : namespaceState Nat Nat Unit Unit) :
    namespaceState Nat Nat Unit Unit :=
  { fresh with common := ns.common, lock := ns.lock, ShardsTotal := ns.ShardsTotal,
               ShardsSuccessful := ns.ShardsSuccessful, ShardsFailed := ns.ShardsFailed }

/-- Collaborators whose `NewLockTask`, `complete`, `rollup` and `copyFrom` are
those of `demoEnv`, for runs of the closures alone. -/
def demoOps : Collaborators Nat Nat Unit Unit :=
  { config := demoConfig
    ParseLock := fun _ => ("job1/ns1", 3, "default", none)
    GetLock := fun _ _ => .error (.other "unused")
    NewLockTask := demoNewLockTask
    Get := fun _ => .error (.other "unused")
    jobID := fun _ => "job1"
    split := fun ns => (ns, none)
    rollup := fun ns => (ns, none)
    copyFrom := demoCopyFrom
    complete := fun c => c + 100
    commonRollup := fun c r => c + r
    attempts := [] }

/-- Three completions, of namespaces whose 3 shards all succeeded. -/
def demoRollups : List (Key × namespaceState Nat Nat Unit Unit × namespaceState Nat Nat Unit Unit) :=
  [(NewKey "mr_namespace" "job1/ns1", demoNamespace 3 3 0, demoNamespace 3 3 0),
   (NewKey "mr_namespace" "job1/ns2", demoNamespace 3 3 0, demoNamespace 3 3 0),
   (NewKey "mr_namespace" "job1/ns3", demoNamespace 3 3 0, demoNamespace 3 3 0)]

/-- A delivery by POST. -/
def demoRequest : Request := ⟨"POST", [("X-Mapper-ID", "job1/ns1"), ("X-Mapper-Seq", "3")]⟩

/-- Collaborators that yield the given results: of `GetLock`, of the job lookup,
of `split` and `rollup` (the error), and the attempts of the transaction. -/
def demoEnv (locked : Except Error (namespaceState Nat Nat Unit Unit))
    (job : Except Error (jobState Nat Nat Unit Unit)) (work : Option Error)
    (attempts : List (View Nat Nat Unit Unit)) : Collaborators Nat Nat Unit Unit :=
  { config := demoConfig
    ParseLock := fun _ => ("job1/ns1", 3, "default", none)
    GetLock := fun _ _ => locked
    NewLockTask := demoNewLockTask
    Get := fun _ => job
    jobID := fun _ => "job1"
    split := fun ns => ({ ns with ShardsTotal := 5 }, work)
    rollup := fun ns => (ns, work)
    copyFrom := demoCopyFrom
    complete := fun c => c + 100
    commonRollup := fun c r => c + r
    attempts := attempts }

/-- An attempt that reads the given entities and in which `storage.PutMulti`
fails. -/
def demoViewPutMultiFails (fresh : namespaceState Nat Nat Unit Unit)
    (j : jobState Nat Nat Unit Unit) : View Nat Nat Unit Unit :=
  { okView fresh j with PutMulti := fun _ _ _ => some (.other "datastore: timeout") }

/-- The lock is valid and the job read at handler entry is aborted. -/
def demoEnvAborted : Collaborators Nat Nat Unit Unit :=
  demoEnv (.ok (demoNamespace 3 3 0)) (.ok (demoJob true false 2 0 0)) none []

/-- The lock is valid, the job read at handler entry is not aborted; the first
attempt of the transaction fails at `PutMulti`, the second re-reads the job
aborted. -/
def demoEnvAbortedInTxn : Collaborators Nat Nat Unit Unit :=
  demoEnv (.ok (demoNamespace 3 3 0)) (.ok (demoJob false false 2 0 0)) none
    [demoViewPutMultiFails (demoNamespace 3 3 0) (demoJob false false 2 0 0),
     demoView (demoNamespace 3 3 0) (demoJob true false 2 0 0)]

/-- The only attempt of the completion transaction: it re-reads the job aborted
and its commit fails. -/
def demoViewAbortedCommitFails : View Nat Nat Unit Unit :=
  { demoView (demoNamespace 3 3 0) (demoJob true false 2 0 0) with
    commit := some (.other "datastore: timeout") }

/-- The lock is valid, the job read at handler entry is not aborted; the only
attempt of the transaction re-reads the job aborted and fails at its commit. -/
def demoEnvAbortedCommitFails : Collaborators Nat Nat Unit Unit :=
  demoEnv (.ok (demoNamespace 3 3 0)) (.ok (demoJob false false 2 0 0)) none
    [demoViewAbortedCommitFails]

/-- The local namespace state of the demo handlers once the lock is valid and
the job is attached. -/
def demoLocal (j : jobState Nat Nat Unit Unit) : namespaceState Nat Nat Unit Unit :=
  { demoNamespace 3 3 0 with id := "job1/ns1", queue := "default", job := some j }

/-- The lock is valid, the job is not aborted and every step succeeds, but
`ParseLock` returns an error along with its values. -/
def demoEnvBadHeader : Collaborators Nat Nat Unit Unit :=
  { demoEnv (.ok (demoNamespace 0 3 0)) (.ok (demoJob false true 0 0 0)) none
      [demoView (demoNamespace 0 3 0) (demoJob false true 0 0 0)] with
    ParseLock := fun _ => ("job1/ns1", 3, "", some (.other "missing queue header")) }

/-- The lock is valid, the job is not aborted, `split` and `rollup` succeed and
the only attempt of the transaction fails at its commit. -/
def demoEnvCommitFails : Collaborators Nat Nat Unit Unit :=
  demoEnv (.ok (demoNamespace 3 3 0)) (.ok (demoJob false true 0 0 0)) none
    [{ demoView (demoNamespace 0 3 0) (demoJob false true 0 0 0) with
       commit := some (.other "datastore: timeout") }]

/-- The lock is valid and the job lookup fails. -/
def demoEnvJobMissing : Collaborators Nat Nat Unit Unit :=
  demoEnv (.ok (demoNamespace 3 3 0)) (.error (.other "datastore: no such entity")) none []

/-- The lock is valid, the job is not aborted, and `split` and `rollup` fail. -/
def demoEnvWorkFails : Collaborators Nat Nat Unit Unit :=
  demoEnv (.ok (demoNamespace 3 3 0)) (.ok (demoJob false true 0 0 0))
    (some (.other "split failed")) []

/-- The local namespace state of the demo handlers once the lock is valid,
before the job is attached. -/
def demoDelivered : namespaceState Nat Nat Unit Unit :=
  { demoNamespace 3 3 0 with id := "job1/ns1", queue := "default" }

end Examples

/-! ## The split transaction: lemmas -/

/-- The calls of the split closure once the namespace has been re-read: an
`Add` exactly when the successes equal the total, then the `Put` unless the
`Add` failed; after an `Add` the entity put is the one `NewLockTask` left. -/
theorem splitTxn_calls {C L J Q : Type} (env : Collaborators C L J Q) (k : Key)
    (queue : String) (ns fresh : namespaceState C L J Q) (v : View C L J Q)
    (h : v.Get k = .ok fresh) :
    (splitTxn env k queue ns v).calls =
      if fresh.ShardsSuccessful = ns.ShardsTotal then
        if (v.Add (completionTask env k (splitFresh ns fresh)) queue).isSome then
          [.Add (completionTask env k (splitFresh ns fresh)) queue]
        else
          [.Add (completionTask env k (splitFresh ns fresh)) queue,
           .Put k (afterNewLockTask env k (splitFresh ns fresh))]
      else [.Put k (splitFresh ns fresh)] := by
  unfold splitTxn
  rw [h]
  have e1 : (splitFresh ns fresh).ShardsSuccessful = fresh.ShardsSuccessful := rfl
  have e2 : (splitFresh ns fresh).ShardsTotal = ns.ShardsTotal := rfl
  simp only [e1, e2]
  by_cases hc : fresh.ShardsSuccessful = ns.ShardsTotal
  · simp only [hc, if_true]
    cases hA : v.Add (completionTask env k (splitFresh ns fresh)) queue with
    | some err => simp
    | none =>
      cases hP : v.Put k (afterNewLockTask env k (splitFresh ns fresh)) <;> simp
  · simp only [hc, if_false]
    cases hP : v.Put k (splitFresh ns fresh) <;> rfl

/-- The error returned by the split closure once the namespace has been
re-read: that of the `Add` if it is made and fails, else that of the `Put`. -/
theorem splitTxn_err {C L J Q : Type} (env : Collaborators C L J Q) (k : Key)
    (queue : String) (ns fresh : namespaceState C L J Q) (v : View C L J Q)
    (h : v.Get k = .ok fresh) :
    (splitTxn env k queue ns v).err =
      if fresh.ShardsSuccessful = ns.ShardsTotal then
        match v.Add (completionTask env k (splitFresh ns fresh)) queue with
        | some err => some err
        | none => v.Put k (afterNewLockTask env k (splitFresh ns fresh))
      else v.Put k (splitFresh ns fresh) := by
  unfold splitTxn
  rw [h]
  have e1 : (splitFresh ns fresh).ShardsSuccessful = fresh.ShardsSuccessful := rfl
  have e2 : (splitFresh ns fresh).ShardsTotal = ns.ShardsTotal := rfl
  simp only [e1, e2]
  by_cases hc : fresh.ShardsSuccessful = ns.ShardsTotal
  · simp only [hc, if_true]
    cases hA : v.Add (completionTask env k (splitFresh ns fresh)) queue with
    | some err => simp
    | none =>
      cases hP : v.Put k (afterNewLockTask env k (splitFresh ns fresh)) <;> simp
  · simp only [hc, if_false]
    cases hP : v.Put k (splitFresh ns fresh) <;> rfl

/-- Every entity the split closure puts has the computed `ShardsTotal` and,
outside its lock, the fields of the fresh state. -/
theorem splitTxn_put {C L J Q : Type} (env : Collaborators C L J Q) (k : Key)
    (queue : String) (ns fresh : namespaceState C L J Q) (v : View C L J Q)
    (h : v.Get k = .ok fresh) (key : Key) (e : namespaceState C L J Q)
    (he : Call.Put key e ∈ (splitTxn env k queue ns v).calls) :
    key = k ∧
    ((fresh.ShardsSuccessful = ns.ShardsTotal ∧
        e = afterNewLockTask env k (splitFresh ns fresh)) ∨
      (fresh.ShardsSuccessful ≠ ns.ShardsTotal ∧ e = splitFresh ns fresh)) := by
  rw [splitTxn_calls env k queue ns fresh v h] at he
  by_cases hc : fresh.ShardsSuccessful = ns.ShardsTotal
  · rw [if_pos hc] at he
    split_ifs at he <;> simp at he
    exact ⟨he.1, Or.inl ⟨hc, he.2⟩⟩
  · rw [if_neg hc] at he
    simp at he
    exact ⟨he.1, Or.inr ⟨hc, he.2⟩⟩

/-- A closure that could not re-read the namespace makes no call. -/
theorem splitTxn_calls_of_error {C L J Q : Type} (env : Collaborators C L J Q) (k : Key)
    (queue : String) (ns : namespaceState C L J Q) (v : View C L J Q) (err : Error)
    (h : v.Get k = .error err) : splitTxn env k queue ns v = ⟨some err, []⟩ := by
  unfold splitTxn
  rw [h]

/-! ## The completion transaction: lemmas -/

/-- A Go `int` holds itself. -/
theorem wrapInt_of_range (x : Int) (hlo : -9223372036854775808 ≤ x)
    (hhi : x < 9223372036854775808) : wrapInt x = x := by
  unfold wrapInt
  omega

/-- Wrapping an argument of a sum before wrapping the sum changes nothing. -/
theorem wrapInt_add (a b : Int) : wrapInt (wrapInt a + b) = wrapInt (a + b) := by
  unfold wrapInt
  omega

/-- The `complete()` call of the job update: made exactly when the incremented
`NamespacesSuccessful` equals `NamespacesTotal` and `Iterating` is false. -/
theorem rollupJob_calls {C L J Q : Type} (env : Collaborators C L J Q) (jk : Key)
    (ns : namespaceState C L J Q) (j : jobState C L J Q) :
    (rollupJob env jk ns j).2 =
      if wrapInt (j.NamespacesSuccessful + 1) = j.NamespacesTotal ∧ j.Iterating = false then
        [.complete jk] else [] := by
  unfold rollupJob
  by_cases hc : wrapInt (j.NamespacesSuccessful + 1) = j.NamespacesTotal ∧ j.Iterating = false
  · simp only [hc, and_self, if_true]
  · simp only [hc, if_false]

/-- The job left by the job update. -/
theorem rollupJob_job {C L J Q : Type} (env : Collaborators C L J Q) (jk : Key)
    (ns : namespaceState C L J Q) (j : jobState C L J Q) :
    (rollupJob env jk ns j).1 =
      if wrapInt (j.NamespacesSuccessful + 1) = j.NamespacesTotal ∧ j.Iterating = false then
        { j with NamespacesSuccessful := wrapInt (j.NamespacesSuccessful + 1),
                 common := env.complete (env.commonRollup j.common ns.common),
                 lock := { j.lock with RequestID := "" } }
      else
        { j with NamespacesSuccessful := wrapInt (j.NamespacesSuccessful + 1),
                 common := env.commonRollup j.common ns.common } := by
  unfold rollupJob
  by_cases hc : wrapInt (j.NamespacesSuccessful + 1) = j.NamespacesTotal ∧ j.Iterating = false
  · simp only [hc, and_self, if_true]
  · simp only [hc, if_false]

/-- The counters and flags of the job left by the job update. -/
theorem rollupJob_fields {C L J Q : Type} (env : Collaborators C L J Q) (jk : Key)
    (ns : namespaceState C L J Q) (j : jobState C L J Q) :
    (rollupJob env jk ns j).1.NamespacesSuccessful = wrapInt (j.NamespacesSuccessful + 1) ∧
    (rollupJob env jk ns j).1.NamespacesTotal = j.NamespacesTotal ∧
    (rollupJob env jk ns j).1.NamespacesFailed = j.NamespacesFailed ∧
    (rollupJob env jk ns j).1.Iterating = j.Iterating ∧
    (rollupJob env jk ns j).1.Abort = j.Abort := by
  rw [rollupJob_job]
  split_ifs <;> exact ⟨rfl, rfl, rfl, rfl, rfl⟩

/-- The calls of the completion closure once both entities have been re-read
and the job is not aborted: the `complete()` of the job if it is due, then one
`PutMulti` of the namespace and the job. -/
theorem completeTxn_calls {C L J Q : Type} (env : Collaborators C L J Q) (k jk : Key)
    (ns fresh : namespaceState C L J Q) (j : jobState C L J Q) (v : View C L J Q)
    (h : v.GetMulti [k, jk] = .ok (fresh, j)) (ha : j.Abort = false) :
    (completeTxn env k jk ns v).calls =
      (rollupJob env jk ns j).2 ++
        [.PutMulti [k, jk] (env.copyFrom fresh ns) (rollupJob env jk ns j).1] := by
  unfold completeTxn
  simp only [h, ha, Bool.false_eq_true, if_false]
  cases v.PutMulti [k, jk] (env.copyFrom fresh ns) (rollupJob env jk ns j).1 <;> rfl

/-- The error returned by the completion closure once both entities have been
re-read and the job is not aborted: that of the `PutMulti`. -/
theorem completeTxn_err {C L J Q : Type} (env : Collaborators C L J Q) (k jk : Key)
    (ns fresh : namespaceState C L J Q) (j : jobState C L J Q) (v : View C L J Q)
    (h : v.GetMulti [k, jk] = .ok (fresh, j)) (ha : j.Abort = false) :
    (completeTxn env k jk ns v).err =
      v.PutMulti [k, jk] (env.copyFrom fresh ns) (rollupJob env jk ns j).1 := by
  unfold completeTxn
  simp only [h, ha, Bool.false_eq_true, if_false]
  cases v.PutMulti [k, jk] (env.copyFrom fresh ns) (rollupJob env jk ns j).1 <;> rfl

/-- A completion closure that re-reads an aborted job returns `nil` and makes
no call. -/
theorem completeTxn_of_abort {C L J Q : Type} (env : Collaborators C L J Q) (k jk : Key)
    (ns fresh : namespaceState C L J Q) (j : jobState C L J Q) (v : View C L J Q)
    (h : v.GetMulti [k, jk] = .ok (fresh, j)) (ha : j.Abort = true) :
    completeTxn env k jk ns v = ⟨none, []⟩ := by
  unfold completeTxn
  simp only [h, ha, if_true]

/-- The job stored by a completion transaction that read a job that is not
aborted, and whose calls all succeed, is the updated job. -/
theorem storedJob_completeTxn {C L J Q : Type} (env : Collaborators C L J Q) (k jk : Key)
    (ns fresh : namespaceState C L J Q) (j : jobState C L J Q) (ha : j.Abort = false) :
    storedJob (completeTxn env k jk ns (okView fresh j)).calls j = (rollupJob env jk ns j).1 := by
  rw [completeTxn_calls env k jk ns fresh j (okView fresh j) rfl ha, rollupJob_calls]
  split_ifs <;> rfl

/-- In a sequence of completion transactions on a job that is not aborted, the
transaction at position `i` calls `complete()` on the job exactly when the
`NamespacesSuccessful` it started from, incremented `i + 1` times as a Go
`int`, equals `NamespacesTotal` and `Iterating` is false. -/
theorem completionRuns_complete_iff {C L J Q : Type} (env : Collaborators C L J Q)
    (jk : Key) (xs : List (Key × namespaceState C L J Q × namespaceState C L J Q)) :
    ∀ (j : jobState C L J Q), j.Abort = false → ∀ (i : Nat) (R : Run C L J Q),
      (completionRuns env jk xs j)[i]? = some R →
      (Call.complete jk ∈ R.calls ↔
        wrapInt (j.NamespacesSuccessful + ((i : Int) + 1)) = j.NamespacesTotal ∧
          j.Iterating = false) := by
  induction xs with
  | nil =>
    intro j _ i R hR
    simp [completionRuns] at hR
  | cons x rest ih =>
    obtain ⟨k, ns, fresh⟩ := x
    intro j ha i R hR
    cases i with
    | zero =>
      simp only [completionRuns, List.getElem?_cons_zero, Option.some.injEq] at hR
      subst hR
      rw [completeTxn_calls env k jk ns fresh j (okView fresh j) rfl ha, rollupJob_calls]
      by_cases hc : wrapInt (j.NamespacesSuccessful + 1) = j.NamespacesTotal ∧
          j.Iterating = false
      · simp [hc]
      · simp only [hc, if_false]
        simp [hc]
    | succ i =>
      simp only [completionRuns, List.getElem?_cons_succ] at hR
      rw [storedJob_completeTxn env k jk ns fresh j ha] at hR
      obtain ⟨f1, f2, -, f4, f5⟩ := rollupJob_fields env jk ns j
      have := ih (rollupJob env jk ns j).1 (f5.trans ha) i R hR
      rw [this, f1, f2, f4, wrapInt_add]
      push_cast
      have e : j.NamespacesSuccessful + 1 + ((i : Int) + 1)
          = j.NamespacesSuccessful + ((i : Int) + 1 + 1) := by ring
      rw [e]

/-- The split closure never calls `ClearLock`. -/
theorem splitTxn_no_ClearLock {C L J Q : Type} (env : Collaborators C L J Q) (k : Key)
    (queue : String) (ns : namespaceState C L J Q) (v : View C L J Q) :
    ∀ c ∈ (splitTxn env k queue ns v).calls, c.isClearLock = false := by
  intro c hc
  cases hg : v.Get k with
  | error err =>
    rw [splitTxn_calls_of_error env k queue ns v err hg] at hc
    simp at hc
  | ok fresh =>
    rw [splitTxn_calls env k queue ns fresh v hg] at hc
    split_ifs at hc <;> simp at hc <;> rcases hc with rfl | rfl <;> rfl

/-- The completion closure never calls `ClearLock`. -/
theorem completeTxn_no_ClearLock {C L J Q : Type} (env : Collaborators C L J Q) (k jk : Key)
    (ns : namespaceState C L J Q) (v : View C L J Q) :
    ∀ c ∈ (completeTxn env k jk ns v).calls, c.isClearLock = false := by
  intro c hc
  cases hg : v.GetMulti [k, jk] with
  | error err =>
    have : completeTxn env k jk ns v = ⟨some err, []⟩ := by
      unfold completeTxn
      simp only [hg]
    rw [this] at hc
    simp at hc
  | ok p =>
    obtain ⟨fresh, j⟩ := p
    cases ha : j.Abort with
    | true =>
      rw [completeTxn_of_abort env k jk ns fresh j v hg ha] at hc
      simp at hc
    | false =>
      rw [completeTxn_calls env k jk ns fresh j v hg ha, rollupJob_calls] at hc
      split_ifs at hc <;> simp at hc <;> rcases hc with rfl | rfl <;> rfl

/-! ## The transaction runner: lemmas -/

/-- An attempt that does not fail ends the transaction and is committed. -/
theorem RunInTransaction_commit {C L J Q : Type} (f : View C L J Q → Run C L J Q)
    (v : View C L J Q) (vs : List (View C L J Q)) (h : attemptFailure (f v) v = none) :
    RunInTransaction f (v :: vs) = ⟨none, (f v).calls, (f v).calls⟩ := by
  cases vs with
  | nil => simp only [RunInTransaction, h]
  | cons u us => simp only [RunInTransaction, h]

/-- A failed attempt that is not the last is followed by the next attempt. -/
theorem RunInTransaction_retry {C L J Q : Type} (f : View C L J Q → Run C L J Q)
    (v u : View C L J Q) (us : List (View C L J Q)) (err : Error)
    (h : attemptFailure (f v) v = some err) :
    RunInTransaction f (v :: u :: us) =
      ⟨(RunInTransaction f (u :: us)).err, (f v).calls ++ (RunInTransaction f (u :: us)).calls,
        (RunInTransaction f (u :: us)).committed⟩ := by
  simp only [RunInTransaction, h]

/-- A failed last attempt gives its error to the transaction. -/
theorem RunInTransaction_last {C L J Q : Type} (f : View C L J Q → Run C L J Q)
    (v : View C L J Q) (err : Error) (h : attemptFailure (f v) v = some err) :
    RunInTransaction f [v] = ⟨some err, (f v).calls, []⟩ := by
  simp only [RunInTransaction, h]

/-- Every call of a transaction is a call its closure made in some attempt. -/
theorem RunInTransaction_calls_mem {C L J Q : Type} (f : View C L J Q → Run C L J Q)
    (vs : List (View C L J Q)) (c : Call C L J Q)
    (hc : c ∈ (RunInTransaction f vs).calls) : ∃ v ∈ vs, c ∈ (f v).calls := by
  induction vs with
  | nil => simp [RunInTransaction] at hc
  | cons v vs ih =>
    cases hf : attemptFailure (f v) v with
    | none =>
      rw [RunInTransaction_commit f v vs hf] at hc
      exact ⟨v, List.mem_cons_self _ _, hc⟩
    | some err =>
      cases vs with
      | nil =>
        rw [RunInTransaction_last f v err hf] at hc
        exact ⟨v, List.mem_cons_self _ _, hc⟩
      | cons u us =>
        rw [RunInTransaction_retry f v u us err hf] at hc
        simp only [List.mem_append] at hc
        rcases hc with hc | hc
        · exact ⟨v, List.mem_cons_self _ _, hc⟩
        · obtain ⟨w, hw, hcw⟩ := ih hc
          exact ⟨w, List.mem_cons_of_mem _ hw, hcw⟩

/-- A transaction whose first attempts fail and whose next attempt does not: it
succeeds and commits the calls of that attempt. -/
theorem RunInTransaction_of_commit {C L J Q : Type} (f : View C L J Q → Run C L J Q)
    (pre : List (View C L J Q)) (v : View C L J Q) (rest : List (View C L J Q))
    (hpre : ∀ u ∈ pre, attemptFailure (f u) u ≠ none)
    (hv : attemptFailure (f v) v = none) :
    (RunInTransaction f (pre ++ v :: rest)).err = none ∧
    (RunInTransaction f (pre ++ v :: rest)).committed = (f v).calls := by
  induction pre with
  | nil =>
    rw [List.nil_append, RunInTransaction_commit f v rest hv]
    exact ⟨rfl, rfl⟩
  | cons u us ih =>
    have hu := hpre u (List.mem_cons_self _ _)
    have ih' := ih (fun w hw => hpre w (List.mem_cons_of_mem _ hw))
    obtain ⟨err, he⟩ := Option.ne_none_iff_exists'.1 hu
    have hne : ∃ x xs, us ++ v :: rest = x :: xs := by
      cases us with
      | nil => exact ⟨v, rest, rfl⟩
      | cons x xs => exact ⟨x, xs ++ v :: rest, rfl⟩
    obtain ⟨x, xs, hx⟩ := hne
    rw [List.cons_append, hx, RunInTransaction_retry f u x xs err he, ← hx]
    exact ih'

/-- No call of a split transaction is a `ClearLock`. -/
theorem RunInTransaction_splitTxn_filter {C L J Q : Type} (env : Collaborators C L J Q)
    (k : Key) (queue : String) (ns : namespaceState C L J Q) (vs : List (View C L J Q)) :
    (RunInTransaction (splitTxn env k queue ns) vs).calls.filter Call.isClearLock = [] := by
  rw [List.filter_eq_nil_iff]
  intro c hc
  obtain ⟨u, -, hu⟩ := RunInTransaction_calls_mem _ _ c hc
  rw [splitTxn_no_ClearLock env k queue ns u c hu]
  simp

/-- No call of a completion transaction is a `ClearLock`. -/
theorem RunInTransaction_completeTxn_filter {C L J Q : Type} (env : Collaborators C L J Q)
    (k jk : Key) (ns : namespaceState C L J Q) (vs : List (View C L J Q)) :
    (RunInTransaction (completeTxn env k jk ns) vs).calls.filter Call.isClearLock = [] := by
  rw [List.filter_eq_nil_iff]
  intro c hc
  obtain ⟨u, -, hu⟩ := RunInTransaction_calls_mem _ _ c hc
  rw [completeTxn_no_ClearLock env k jk ns u c hu]
  simp

/-! ## The handlers, evaluated on deliveries that succeed -/

/-- A split delivery for a namespace whose 5 shards have already succeeded: the
handler splits, and its transaction adds the completion task and puts the namespace
with the total and the lock `NewLockTask` left; both calls are
committed. -/
theorem namespaceHandler_evaluated :
    namespaceHandler (demoEnv (.ok (demoNamespace 0 0 0)) (.ok (demoJob false true 0 0 0)) none
        [demoView (demoNamespace 0 5 0) (demoJob false true 0 0 0)]) demoRequest =
      ⟨some 200, "",
        [.split { demoNamespace 0 0 0 with
            id := "job1/ns1", queue := "default", job := some (demoJob false true 0 0 0) },
         .Add ⟨demoKey, { demoNamespace 5 5 0 with lock := ⟨"", 7⟩ },
            "/_ah/mapper/namespace/complete"⟩ "default",
         .Put demoKey { demoNamespace 5 5 0 with lock := ⟨"", 8⟩ }],
        [.Add ⟨demoKey, { demoNamespace 5 5 0 with lock := ⟨"", 7⟩ },
            "/_ah/mapper/namespace/complete"⟩ "default",
         .Put demoKey { demoNamespace 5 5 0 with lock := ⟨"", 8⟩ }]⟩ := rfl

/-- A split closure whose `taskqueue.Add` fails returns the error after that one
call. -/
theorem splitTxn_add_fails_evaluated :
    splitTxn demoOps demoKey "default" (demoNamespace 5 0 0)
        (demoViewAddFails (demoNamespace 0 5 0)) =
      ⟨some (.other "add failed"),
        [.Add ⟨demoKey, { demoNamespace 5 5 0 with lock := ⟨"", 7⟩ },
            "/_ah/mapper/namespace/complete"⟩ "default"]⟩ := rfl

/-- A completion delivery for the last namespace of a job whose iterator has
finished: the handler rolls up and completes its local state, and its
transaction completes the job and puts both entities. -/
theorem namespaceCompleteHandler_evaluated :
    namespaceCompleteHandler (demoEnv (.ok (demoNamespace 3 3 0))
        (.ok (demoJob false false 2 1 0)) none
        [demoView (demoNamespace 3 3 0) (demoJob false false 2 1 0)]) demoRequest =
      ⟨some 200, "",
        [.rollup (demoLocal (demoJob false false 2 1 0)),
         .complete demoKey,
         .complete demoJobKey,
         .PutMulti [demoKey, demoJobKey]
            { demoNamespace 3 3 0 with common := 101, lock := ⟨"", 7⟩ }
            { demoJob false false 2 2 0 with common := 201, lock := ⟨"", 4⟩ }],
        [.complete demoJobKey,
         .PutMulti [demoKey, demoJobKey]
            { demoNamespace 3 3 0 with common := 101, lock := ⟨"", 7⟩ }
            { demoJob false false 2 2 0 with common := 201, lock := ⟨"", 4⟩ }]⟩ := rfl

/-! ## The split transaction: claims -/

/-- C1, as stated, fails: the fresh state has 5 successes and lock sequence 7,
and the handler computed 5 shards, so the closure builds the completion task;
`NewLockTask`, which is passed the entity, advances its sequence, and the
entity the closure then puts has lock sequence 8, not that of the fresh
state. -/
theorem C1_counterexample :
    (demoView (demoNamespace 0 5 0) (demoJob false true 0 0 0)).Get demoKey
        = .ok (demoNamespace 0 5 0) ∧
    (splitTxn demoOps demoKey "default" (demoNamespace 5 0 0)
        (demoView (demoNamespace 0 5 0) (demoJob false true 0 0 0))).err = none ∧
    (∃ t e, (splitTxn demoOps demoKey "default" (demoNamespace 5 0 0)
        (demoView (demoNamespace 0 5 0) (demoJob false true 0 0 0))).calls =
          [.Add t "default", .Put demoKey e] ∧
      (demoNamespace 0 5 0).lock.state = 7 ∧ e.lock.state = 8 ∧
      e.lock.state ≠ (demoNamespace 0 5 0).lock.state) :=
  ⟨rfl, rfl, _, _, rfl, rfl, rfl, by decide⟩

/-- C1, amended: in the split transaction of `namespaceHandler`, once the namespace
has been re-read as `fresh`, every entity the closure puts is stored
under the key of the namespace and differs from `fresh` only in `ShardsTotal`,
which is the count computed by the handler's local copy, and in its lock:
`ShardsSuccessful`, `ShardsFailed` and every field outside the lock are those
of `fresh`.  When no completion task is built (the fresh successes differ from
the total), the lock is that of `fresh` with an empty `RequestID`; when the
task is built, the lock is the one `NewLockTask` leaves on the entity it is
passed, which is `fresh` with the new total and an empty `RequestID`.  A
closure that returns `nil` has put such an entity. -/
theorem C1_split_writes_total_and_lock_only {C L J Q : Type} (env : Collaborators C L J Q)
    (k : Key) (queue : String) (ns fresh : namespaceState C L J Q) (v : View C L J Q)
    (h : v.Get k = .ok fresh) :
    (∀ key e, Call.Put key e ∈ (splitTxn env k queue ns v).calls →
      key = k ∧ e.ShardsTotal = ns.ShardsTotal ∧
      e.ShardsSuccessful = fresh.ShardsSuccessful ∧ e.ShardsFailed = fresh.ShardsFailed ∧
      e.common = fresh.common ∧ e.id = fresh.id ∧
      e.queue = fresh.queue ∧ e.job = fresh.job ∧
      (fresh.ShardsSuccessful ≠ ns.ShardsTotal →
        e.lock.RequestID = "" ∧ e.lock.state = fresh.lock.state) ∧
      (fresh.ShardsSuccessful = ns.ShardsTotal →
        e.lock = env.NewLockTask k
          { fresh with ShardsTotal := ns.ShardsTotal,
                       lock := { fresh.lock with RequestID := "" } }
          (env.config.BasePath ++ namespaceCompleteURL))) ∧
    ((splitTxn env k queue ns v).err = none →
      ∃ e, Call.Put k e ∈ (splitTxn env k queue ns v).calls) := by
  refine ⟨?_, ?_⟩
  · intro key e he
    obtain ⟨rfl, hcase⟩ := splitTxn_put env k queue ns fresh v h key e he
    rcases hcase with ⟨hc, rfl⟩ | ⟨hc, rfl⟩
    · exact ⟨rfl, rfl, rfl, rfl, rfl, rfl, rfl, rfl, fun hne => absurd hc hne, fun _ => rfl⟩
    · exact ⟨rfl, rfl, rfl, rfl, rfl, rfl, rfl, rfl, fun _ => ⟨rfl, rfl⟩,
        fun heq => absurd heq hc⟩
  · rw [splitTxn_calls env k queue ns fresh v h, splitTxn_err env k queue ns fresh v h]
    intro herr
    by_cases hc : fresh.ShardsSuccessful = ns.ShardsTotal
    · rw [if_pos hc] at herr ⊢
      cases hA : v.Add (completionTask env k (splitFresh ns fresh)) queue with
      | some err => rw [hA] at herr; simp at herr
      | none => exact ⟨afterNewLockTask env k (splitFresh ns fresh), by simp⟩
    · exact ⟨splitFresh ns fresh, by simp [hc]⟩

/-- Witness for C1, amended: the fresh state has 5 successes and 1 failure, the
local copy (which holds other counters) computed 5 shards, so the completion
task is built. -/
theorem C1_split_writes_total_and_lock_only_witness :
    (demoView (demoNamespace 0 5 1) (demoJob false true 0 0 0)).Get demoKey
        = .ok (demoNamespace 0 5 1) ∧
    ((∀ key e, Call.Put key e ∈ (splitTxn demoOps demoKey "default"
        (demoNamespace 5 0 0)
        (demoView (demoNamespace 0 5 1) (demoJob false true 0 0 0))).calls →
      key = demoKey ∧ e.ShardsTotal = (demoNamespace 5 0 0).ShardsTotal ∧
      e.ShardsSuccessful = (demoNamespace 0 5 1).ShardsSuccessful ∧
      e.ShardsFailed = (demoNamespace 0 5 1).ShardsFailed ∧
      e.common = (demoNamespace 0 5 1).common ∧ e.id = (demoNamespace 0 5 1).id ∧
      e.queue = (demoNamespace 0 5 1).queue ∧ e.job = (demoNamespace 0 5 1).job ∧
      ((demoNamespace 0 5 1).ShardsSuccessful ≠ (demoNamespace 5 0 0).ShardsTotal →
        e.lock.RequestID = "" ∧ e.lock.state = (demoNamespace 0 5 1).lock.state) ∧
      ((demoNamespace 0 5 1).ShardsSuccessful = (demoNamespace 5 0 0).ShardsTotal →
        e.lock = demoOps.NewLockTask demoKey
          { demoNamespace 0 5 1 with
              ShardsTotal := (demoNamespace 5 0 0).ShardsTotal,
              lock := { (demoNamespace 0 5 1).lock with RequestID := "" } }
          (demoOps.config.BasePath ++ namespaceCompleteURL))) ∧
    ((splitTxn demoOps demoKey "default" (demoNamespace 5 0 0)
        (demoView (demoNamespace 0 5 1) (demoJob false true 0 0 0))).err = none →
      ∃ e, Call.Put demoKey e ∈ (splitTxn demoOps demoKey "default"
        (demoNamespace 5 0 0)
        (demoView (demoNamespace 0 5 1) (demoJob false true 0 0 0))).calls)) :=
  ⟨rfl, C1_split_writes_total_and_lock_only demoOps demoKey "default"
    (demoNamespace 5 0 0) (demoNamespace 0 5 1)
    (demoView (demoNamespace 0 5 1) (demoJob false true 0 0 0)) rfl⟩

/-- C2: in the split transaction of `namespaceHandler`, once the namespace has
been re-read as `fresh`, the closure calls `taskqueue.Add` if and only if the
fresh `ShardsSuccessful` equals the `ShardsTotal` it writes; the task then is
the one task of the run, it is the lock task of the namespace for
`namespaceCompleteURL` on the delivery's queue, built from the entity the
closure writes; if the `Add` fails the closure returns its error and makes no
other call (no `Put`); if it succeeds the same run goes on to put the entity
with the new `ShardsTotal`, under the lock `NewLockTask` left on it. -/
theorem C2_completion_task_iff_successful_eq_total {C L J Q : Type}
    (env : Collaborators C L J Q)
    (k : Key) (queue : String) (ns fresh : namespaceState C L J Q) (v : View C L J Q)
    (h : v.Get k = .ok fresh) :
    ((∃ t q, Call.Add t q ∈ (splitTxn env k queue ns v).calls) ↔
      fresh.ShardsSuccessful = ns.ShardsTotal) ∧
    (∀ t q, Call.Add t q ∈ (splitTxn env k queue ns v).calls →
      t.path = env.config.BasePath ++ namespaceCompleteURL ∧ t.key = k ∧ q = queue ∧
      (splitTxn env k queue ns v).calls.filter Call.isAdd = [Call.Add t q] ∧
      (∀ err, v.Add t q = some err →
        (splitTxn env k queue ns v).err = some err ∧
        (splitTxn env k queue ns v).calls = [Call.Add t q]) ∧
      (v.Add t q = none →
        (splitTxn env k queue ns v).calls =
          [Call.Add t q,
           Call.Put k { t.entity with lock := env.NewLockTask t.key t.entity t.path }] ∧
        t.entity.ShardsTotal = ns.ShardsTotal ∧
        t.entity.ShardsSuccessful = fresh.ShardsSuccessful)) := by
  have hcalls := splitTxn_calls env k queue ns fresh v h
  have herr := splitTxn_err env k queue ns fresh v h
  generalize splitTxn env k queue ns v = R at hcalls herr ⊢
  by_cases hc : fresh.ShardsSuccessful = ns.ShardsTotal
  · rw [if_pos hc] at hcalls herr
    cases hA : v.Add (completionTask env k (splitFresh ns fresh)) queue with
    | some err =>
      rw [hA] at hcalls herr
      simp only [Option.isSome_some, if_true] at hcalls herr
      rw [hcalls]
      refine ⟨⟨fun _ => hc, fun _ => ⟨_, _, List.mem_singleton.2 rfl⟩⟩, ?_⟩
      intro t q ht
      rw [List.mem_singleton] at ht
      cases ht
      refine ⟨rfl, rfl, rfl, rfl, ?_, ?_⟩
      · intro err' he
        rw [hA] at he
        exact ⟨herr.trans he, rfl⟩
      · intro he
        rw [hA] at he
        exact absurd he (by simp)
    | none =>
      rw [hA] at hcalls herr
      simp only [Option.isSome_none, Bool.false_eq_true, if_false] at hcalls herr
      rw [hcalls]
      refine ⟨⟨fun _ => hc, fun _ => ⟨_, _, List.mem_cons_self _ _⟩⟩, ?_⟩
      intro t q ht
      simp only [List.mem_cons, Call.Add.injEq, List.mem_singleton, reduceCtorEq,
        List.not_mem_nil, or_false] at ht
      obtain ⟨rfl, rfl⟩ := ht
      refine ⟨rfl, rfl, rfl, rfl, ?_, ?_⟩
      · intro err' he
        rw [hA] at he
        exact absurd he (by simp)
      · intro _
        exact ⟨rfl, rfl, rfl⟩
  · rw [if_neg hc] at hcalls
    rw [hcalls]
    refine ⟨⟨?_, fun hh => absurd hh hc⟩, ?_⟩
    · rintro ⟨t, q, ht⟩
      simp at ht
    · intro t q ht
      simp at ht

/-- Witness for C2: the fresh state has 5 successes and the handler computed 5
shards, so the completion task is added. -/
theorem C2_completion_task_iff_successful_eq_total_witness :
    (demoView (demoNamespace 0 5 0) (demoJob false true 0 0 0)).Get demoKey
        = .ok (demoNamespace 0 5 0) ∧
    (((∃ t q, Call.Add t q ∈ (splitTxn demoOps demoKey "default" (demoNamespace 5 0 0)
        (demoView (demoNamespace 0 5 0) (demoJob false true 0 0 0))).calls) ↔
      (demoNamespace 0 5 0).ShardsSuccessful = (demoNamespace 5 0 0).ShardsTotal) ∧
    (∀ t q, Call.Add t q ∈ (splitTxn demoOps demoKey "default" (demoNamespace 5 0 0)
        (demoView (demoNamespace 0 5 0) (demoJob false true 0 0 0))).calls →
      t.path = demoOps.config.BasePath ++ namespaceCompleteURL ∧ t.key = demoKey ∧
      q = "default" ∧
      (splitTxn demoOps demoKey "default" (demoNamespace 5 0 0)
        (demoView (demoNamespace 0 5 0) (demoJob false true 0 0 0))).calls.filter
          Call.isAdd = [Call.Add t q] ∧
      (∀ err, (demoView (demoNamespace 0 5 0) (demoJob false true 0 0 0)).Add t q
          = some err →
        (splitTxn demoOps demoKey "default" (demoNamespace 5 0 0)
          (demoView (demoNamespace 0 5 0) (demoJob false true 0 0 0))).err = some err ∧
        (splitTxn demoOps demoKey "default" (demoNamespace 5 0 0)
          (demoView (demoNamespace 0 5 0) (demoJob false true 0 0 0))).calls
            = [Call.Add t q]) ∧
      ((demoView (demoNamespace 0 5 0) (demoJob false true 0 0 0)).Add t q = none →
        (splitTxn demoOps demoKey "default" (demoNamespace 5 0 0)
          (demoView (demoNamespace 0 5 0) (demoJob false true 0 0 0))).calls
            = [Call.Add t q,
               Call.Put demoKey
                { t.entity with lock := demoOps.NewLockTask t.key t.entity t.path }] ∧
        t.entity.ShardsTotal = (demoNamespace 5 0 0).ShardsTotal ∧
        t.entity.ShardsSuccessful = (demoNamespace 0 5 0).ShardsSuccessful))) :=
  ⟨rfl, C2_completion_task_iff_successful_eq_total demoOps demoKey "default"
    (demoNamespace 5 0 0) (demoNamespace 0 5 0)
    (demoView (demoNamespace 0 5 0) (demoJob false true 0 0 0)) rfl⟩

/-- C8, as stated, fails: the fresh state has 3 successes and 1 failure and
the handler computed 3 shards; the closure adds the completion task and returns
`nil`, and the entity it puts has `ShardsSuccessful + ShardsFailed = 4`, not
its `ShardsTotal = 3`. -/
theorem C8_counterexample :
    (∃ t q, Call.Add t q ∈ (splitTxn demoOps demoKey "default" (demoNamespace 3 0 0)
        (demoView (demoNamespace 0 3 1) (demoJob false true 0 0 0))).calls) ∧
    (splitTxn demoOps demoKey "default" (demoNamespace 3 0 0)
        (demoView (demoNamespace 0 3 1) (demoJob false true 0 0 0))).err = none ∧
    (∃ e, Call.Put demoKey e ∈ (splitTxn demoOps demoKey "default" (demoNamespace 3 0 0)
        (demoView (demoNamespace 0 3 1) (demoJob false true 0 0 0))).calls ∧
      e.ShardsSuccessful + e.ShardsFailed = 4 ∧ e.ShardsTotal = 3 ∧
      e.ShardsSuccessful + e.ShardsFailed ≠ e.ShardsTotal) :=
  ⟨⟨_, _, List.mem_cons_self _ _⟩, rfl,
    ⟨_, List.mem_cons_of_mem _ (List.mem_cons_self _ _), rfl, rfl, by decide⟩⟩

/-- C8, amended: whenever the split transaction of `namespaceHandler` adds the
completion task of the namespace, every entity it puts has `ShardsSuccessful`
equal to `ShardsTotal`; `ShardsFailed` is not examined, so the entity satisfies
`ShardsSuccessful + ShardsFailed = ShardsTotal` exactly when its `ShardsFailed`
is 0. -/
theorem C8_completion_task_implies_successful_eq_total {C L J Q : Type}
    (env : Collaborators C L J Q) (k : Key) (queue : String) (ns : namespaceState C L J Q)
    (v : View C L J Q)
    (hadd : ∃ t q, Call.Add t q ∈ (splitTxn env k queue ns v).calls)
    (key : Key) (e : namespaceState C L J Q)
    (hput : Call.Put key e ∈ (splitTxn env k queue ns v).calls) :
    e.ShardsSuccessful = e.ShardsTotal ∧
    (e.ShardsSuccessful + e.ShardsFailed = e.ShardsTotal ↔ e.ShardsFailed = 0) := by
  cases hg : v.Get k with
  | error err =>
    rw [splitTxn_calls_of_error env k queue ns v err hg] at hput
    simp at hput
  | ok fresh =>
    obtain ⟨-, hcase⟩ := splitTxn_put env k queue ns fresh v hg key e hput
    rcases hcase with ⟨hc, rfl⟩ | ⟨hc, -⟩
    · have h1 : (afterNewLockTask env k (splitFresh ns fresh)).ShardsSuccessful =
          (afterNewLockTask env k (splitFresh ns fresh)).ShardsTotal := hc
      refine ⟨h1, ?_⟩
      rw [h1]
      constructor <;> (intro h; omega)
    · rw [splitTxn_calls env k queue ns fresh v hg, if_neg hc] at hadd
      obtain ⟨t, q, ht⟩ := hadd
      simp at ht

/-- Witness for C8, amended: 3 successes, no failure, 3 shards computed. -/
theorem C8_completion_task_implies_successful_eq_total_witness :
    (∃ t q, Call.Add t q ∈ (splitTxn demoOps demoKey "default" (demoNamespace 3 0 0)
        (demoView (demoNamespace 0 3 0) (demoJob false true 0 0 0))).calls) ∧
    Call.Put demoKey (afterNewLockTask demoOps demoKey
        (splitFresh (demoNamespace 3 0 0) (demoNamespace 0 3 0))) ∈
      (splitTxn demoOps demoKey "default" (demoNamespace 3 0 0)
        (demoView (demoNamespace 0 3 0) (demoJob false true 0 0 0))).calls ∧
    ((afterNewLockTask demoOps demoKey
        (splitFresh (demoNamespace 3 0 0) (demoNamespace 0 3 0))).ShardsSuccessful =
        (afterNewLockTask demoOps demoKey
          (splitFresh (demoNamespace 3 0 0) (demoNamespace 0 3 0))).ShardsTotal ∧
      ((afterNewLockTask demoOps demoKey
          (splitFresh (demoNamespace 3 0 0) (demoNamespace 0 3 0))).ShardsSuccessful +
          (afterNewLockTask demoOps demoKey
            (splitFresh (demoNamespace 3 0 0) (demoNamespace 0 3 0))).ShardsFailed =
          (afterNewLockTask demoOps demoKey
            (splitFresh (demoNamespace 3 0 0) (demoNamespace 0 3 0))).ShardsTotal ↔
        (afterNewLockTask demoOps demoKey
          (splitFresh (demoNamespace 3 0 0) (demoNamespace 0 3 0))).ShardsFailed = 0)) :=
  ⟨⟨_, _, List.mem_cons_self _ _⟩, List.mem_cons_of_mem _ (List.mem_cons_self _ _),
    C8_completion_task_implies_successful_eq_total demoOps demoKey "default"
      (demoNamespace 3 0 0) (demoView (demoNamespace 0 3 0) (demoJob false true 0 0 0))
      ⟨_, _, List.mem_cons_self _ _⟩ demoKey
      (afterNewLockTask demoOps demoKey
        (splitFresh (demoNamespace 3 0 0) (demoNamespace 0 3 0)))
      (List.mem_cons_of_mem _ (List.mem_cons_self _ _))⟩

/-! ## The completion transaction: claims -/

/-- C6, as stated, fails: for a fresh job that is not aborted and whose
`NamespacesSuccessful` is the largest `int`, `2^63 - 1`, the increment wraps
and the job the closure puts has `NamespacesSuccessful = -2^63`, not the fresh
value plus one. -/
theorem C6_counterexample :
    (demoJob false false 2 9223372036854775807 0).Abort = false ∧
    (demoJob false false 2 9223372036854775807 0).NamespacesSuccessful
      = 9223372036854775807 ∧
    (∃ f j', (completeTxn demoOps demoKey demoJobKey (demoNamespace 3 3 0)
          (demoView (demoNamespace 3 3 0)
            (demoJob false false 2 9223372036854775807 0))).calls =
          [.PutMulti [demoKey, demoJobKey] f j'] ∧
      j'.NamespacesSuccessful = -9223372036854775808 ∧
      j'.NamespacesSuccessful ≠
        (demoJob false false 2 9223372036854775807 0).NamespacesSuccessful + 1) :=
  ⟨rfl, rfl, _, _, rfl, rfl, by decide⟩

/-- C6, amended: in the completion transaction of `namespaceCompleteHandler`,
once both entities have been re-read and the fresh job `j` has `Abort = false`,
the closure writes with one `PutMulti`, of the namespace key and the job key
together, and makes no other write; the job it puts has the fresh
`NamespacesSuccessful` incremented as a Go `int`, which is the fresh value plus
one whenever the fresh value is an `int` below the largest, `2^63 - 1`, and it
has the fresh `NamespacesTotal`, `NamespacesFailed`, `Iterating` and `Abort`;
`complete()` is called on the job if and only if the incremented
`NamespacesSuccessful` equals `NamespacesTotal` and `Iterating` is false, and
then the job put has `complete` applied to its rolled-up `common` and an empty
`RequestID`; otherwise its `common` is only rolled up and its lock is the fresh
one. -/
theorem C6_rollup_increments_and_completes {C L J Q : Type} (env : Collaborators C L J Q)
    (k jk : Key) (ns fresh : namespaceState C L J Q) (j : jobState C L J Q) (v : View C L J Q)
    (h : v.GetMulti [k, jk] = .ok (fresh, j)) (ha : j.Abort = false) :
    ∃ f j', (completeTxn env k jk ns v).calls.filter Call.isPut = [.PutMulti [k, jk] f j'] ∧
      j'.NamespacesSuccessful = wrapInt (j.NamespacesSuccessful + 1) ∧
      (-9223372036854775808 ≤ j.NamespacesSuccessful →
        j.NamespacesSuccessful < 9223372036854775807 →
        j'.NamespacesSuccessful = j.NamespacesSuccessful + 1) ∧
      j'.NamespacesTotal = j.NamespacesTotal ∧
      j'.NamespacesFailed = j.NamespacesFailed ∧
      j'.Iterating = j.Iterating ∧ j'.Abort = j.Abort ∧
      (Call.complete jk ∈ (completeTxn env k jk ns v).calls ↔
        j'.NamespacesSuccessful = j'.NamespacesTotal ∧ j'.Iterating = false) ∧
      (Call.complete jk ∈ (completeTxn env k jk ns v).calls →
        j'.common = env.complete (env.commonRollup j.common ns.common) ∧
        j'.lock.RequestID = "" ∧ j'.lock.state = j.lock.state) ∧
      (Call.complete jk ∉ (completeTxn env k jk ns v).calls →
        j'.common = env.commonRollup j.common ns.common ∧ j'.lock = j.lock) := by
  refine ⟨env.copyFrom fresh ns, (rollupJob env jk ns j).1, ?_⟩
  rw [completeTxn_calls env k jk ns fresh j v h ha, rollupJob_calls]
  obtain ⟨f1, f2, f3, f4, f5⟩ := rollupJob_fields env jk ns j
  refine ⟨?_, f1, ?_, f2, f3, f4, f5, ?_⟩
  · split_ifs <;> simp [Call.isPut]
  · intro hlo hhi
    rw [f1]
    exact wrapInt_of_range _ (by omega) (by omega)
  · rw [f1, f2, f4, rollupJob_job]
    by_cases hc : wrapInt (j.NamespacesSuccessful + 1) = j.NamespacesTotal ∧
        j.Iterating = false
    · simp only [hc, and_self, if_true]
      simp
    · simp only [hc, if_false]
      simp

/-- Witness for C6, amended: the second of two namespaces completes after the
iterator has finished; the fresh `NamespacesSuccessful` is 1, within the
bounds, and the job put has 2. -/
theorem C6_rollup_increments_and_completes_witness :
    (demoView (demoNamespace 3 3 0) (demoJob false false 2 1 0)).GetMulti
        [demoKey, demoJobKey] = .ok (demoNamespace 3 3 0, demoJob false false 2 1 0) ∧
    (demoJob false false 2 1 0).Abort = false ∧
    ∃ f j', (completeTxn demoOps demoKey demoJobKey (demoNamespace 3 3 0)
          (demoView (demoNamespace 3 3 0) (demoJob false false 2 1 0))).calls.filter
          Call.isPut = [.PutMulti [demoKey, demoJobKey] f j'] ∧
      j'.NamespacesSuccessful = wrapInt ((demoJob false false 2 1 0).NamespacesSuccessful + 1) ∧
      j'.NamespacesSuccessful = (demoJob false false 2 1 0).NamespacesSuccessful + 1 ∧
      j'.NamespacesTotal = (demoJob false false 2 1 0).NamespacesTotal ∧
      j'.NamespacesFailed = (demoJob false false 2 1 0).NamespacesFailed ∧
      j'.Iterating = (demoJob false false 2 1 0).Iterating ∧
      j'.Abort = (demoJob false false 2 1 0).Abort ∧
      (Call.complete demoJobKey ∈ (completeTxn demoOps demoKey demoJobKey
          (demoNamespace 3 3 0)
          (demoView (demoNamespace 3 3 0) (demoJob false false 2 1 0))).calls ↔
        j'.NamespacesSuccessful = j'.NamespacesTotal ∧ j'.Iterating = false) ∧
      (Call.complete demoJobKey ∈ (completeTxn demoOps demoKey demoJobKey
          (demoNamespace 3 3 0)
          (demoView (demoNamespace 3 3 0) (demoJob false false 2 1 0))).calls →
        j'.common = demoOps.complete
          (demoOps.commonRollup (demoJob false false 2 1 0).common
            (demoNamespace 3 3 0).common) ∧
        j'.lock.RequestID = "" ∧ j'.lock.state = (demoJob false false 2 1 0).lock.state) ∧
      (Call.complete demoJobKey ∉ (completeTxn demoOps demoKey demoJobKey
          (demoNamespace 3 3 0)
          (demoView (demoNamespace 3 3 0) (demoJob false false 2 1 0))).calls →
        j'.common = demoOps.commonRollup (demoJob false false 2 1 0).common
            (demoNamespace 3 3 0).common ∧
        j'.lock = (demoJob false false 2 1 0).lock) := by
  obtain ⟨f, j', h1, h2, h3, rest⟩ := C6_rollup_increments_and_completes demoOps
    demoKey demoJobKey (demoNamespace 3 3 0) (demoNamespace 3 3 0)
    (demoJob false false 2 1 0)
    (demoView (demoNamespace 3 3 0) (demoJob false false 2 1 0)) rfl rfl
  exact ⟨rfl, rfl, f, j', h1, h2, h3 (by decide) (by decide), rest⟩

/-- C7, as stated, fails in both directions.  A fresh job with
`NamespacesTotal = 2`, `NamespacesSuccessful = 0`, `NamespacesFailed = 1` and
`Iterating = false`: the job the closure puts has
`NamespacesSuccessful + NamespacesFailed = NamespacesTotal`, and `complete()` is
not called on it.  A fresh job with `NamespacesTotal = 2`,
`NamespacesSuccessful = 1`, `NamespacesFailed = 1`: `complete()` is called,
and the job put has `NamespacesSuccessful + NamespacesFailed = 3`. -/
theorem C7_counterexample :
    (∃ f j', (completeTxn demoOps demoKey demoJobKey (demoNamespace 3 3 0)
          (demoView (demoNamespace 3 3 0) (demoJob false false 2 0 1))).calls =
          [.PutMulti [demoKey, demoJobKey] f j'] ∧
      j'.NamespacesSuccessful + j'.NamespacesFailed = j'.NamespacesTotal ∧
      j'.Iterating = false ∧
      Call.complete demoJobKey ∉ (completeTxn demoOps demoKey demoJobKey
          (demoNamespace 3 3 0)
          (demoView (demoNamespace 3 3 0) (demoJob false false 2 0 1))).calls) ∧
    (∃ f j', (completeTxn demoOps demoKey demoJobKey (demoNamespace 3 3 0)
          (demoView (demoNamespace 3 3 0) (demoJob false false 2 1 1))).calls =
          [.complete demoJobKey, .PutMulti [demoKey, demoJobKey] f j'] ∧
      j'.NamespacesSuccessful + j'.NamespacesFailed = 3 ∧ j'.NamespacesTotal = 2) :=
  ⟨⟨_, _, rfl, rfl, rfl, by decide⟩, ⟨_, _, rfl, rfl, rfl⟩⟩

/-- C7, amended: in the completion transaction, once both entities have been
re-read and the fresh job has `Abort = false`, `complete()` is called on the job
if and only if the `NamespacesSuccessful` of the job put (the fresh value after
the increment) equals its `NamespacesTotal` and `Iterating` is false; `NamespacesFailed`
is not examined, so a job put with
`NamespacesSuccessful + NamespacesFailed = NamespacesTotal` and
`Iterating = false` is marked complete exactly when its `NamespacesFailed`
is 0. -/
theorem C7_complete_iff_successful_eq_total {C L J Q : Type} (env : Collaborators C L J Q)
    (k jk : Key) (ns fresh : namespaceState C L J Q) (j : jobState C L J Q) (v : View C L J Q)
    (h : v.GetMulti [k, jk] = .ok (fresh, j)) (ha : j.Abort = false) :
    ∃ f j', (completeTxn env k jk ns v).calls.filter Call.isPut = [.PutMulti [k, jk] f j'] ∧
      (Call.complete jk ∈ (completeTxn env k jk ns v).calls ↔
        j'.NamespacesSuccessful = j'.NamespacesTotal ∧ j'.Iterating = false) ∧
      (j'.NamespacesSuccessful + j'.NamespacesFailed = j'.NamespacesTotal →
        j'.Iterating = false →
        (Call.complete jk ∈ (completeTxn env k jk ns v).calls ↔ j'.NamespacesFailed = 0)) := by
  refine ⟨env.copyFrom fresh ns, (rollupJob env jk ns j).1, ?_⟩
  rw [completeTxn_calls env k jk ns fresh j v h ha, rollupJob_calls]
  obtain ⟨f1, f2, f3, f4, -⟩ := rollupJob_fields env jk ns j
  rw [f1, f2, f3, f4]
  generalize wrapInt (j.NamespacesSuccessful + 1) = w
  by_cases hc : w = j.NamespacesTotal ∧ j.Iterating = false
  · simp only [hc, and_self, if_true]
    refine ⟨by simp [Call.isPut], by simp, ?_⟩
    intro hs _
    have hz : j.NamespacesFailed = 0 := by omega
    simp [hz]
  · simp only [hc, if_false]
    refine ⟨by simp [Call.isPut], by simp, ?_⟩
    intro hs hi
    have hz : ¬ j.NamespacesFailed = 0 := by
      intro hz
      exact hc ⟨by omega, hi⟩
    simp [hz]

/-- Witness for C7, amended: all namespaces of the job have reported, one of
the two as a failure. -/
theorem C7_complete_iff_successful_eq_total_witness :
    (demoView (demoNamespace 3 3 0) (demoJob false false 2 0 1)).GetMulti
        [demoKey, demoJobKey] = .ok (demoNamespace 3 3 0, demoJob false false 2 0 1) ∧
    (demoJob false false 2 0 1).Abort = false ∧
    ∃ f j', (completeTxn demoOps demoKey demoJobKey (demoNamespace 3 3 0)
          (demoView (demoNamespace 3 3 0) (demoJob false false 2 0 1))).calls.filter
          Call.isPut = [.PutMulti [demoKey, demoJobKey] f j'] ∧
      (Call.complete demoJobKey ∈ (completeTxn demoOps demoKey demoJobKey
          (demoNamespace 3 3 0)
          (demoView (demoNamespace 3 3 0) (demoJob false false 2 0 1))).calls ↔
        j'.NamespacesSuccessful = j'.NamespacesTotal ∧ j'.Iterating = false) ∧
      (j'.NamespacesSuccessful + j'.NamespacesFailed = j'.NamespacesTotal →
        j'.Iterating = false →
        (Call.complete demoJobKey ∈ (completeTxn demoOps demoKey demoJobKey
          (demoNamespace 3 3 0)
          (demoView (demoNamespace 3 3 0) (demoJob false false 2 0 1))).calls ↔
          j'.NamespacesFailed = 0)) :=
  ⟨rfl, rfl, C7_complete_iff_successful_eq_total demoOps demoKey demoJobKey
    (demoNamespace 3 3 0) (demoNamespace 3 3 0) (demoJob false false 2 0 1)
    (demoView (demoNamespace 3 3 0) (demoJob false false 2 0 1)) rfl rfl⟩

/-- C10: starting from a job that is not aborted, with `Iterating = false`,
`NamespacesTotal = n` and `NamespacesSuccessful = 0`, in any sequence of
completion transactions run one after the other the transaction at position `i`
(counted from 0) calls `complete()` on the job if and only if `i + 1 = n`: none
of the first `n - 1` marks the job complete, the `n`-th does, and no later one
does; and starting from a job with `Iterating = true`, no transaction of the
sequence marks it complete.  The counter is a Go `int`: the statement is for
the positions with `i + 1` below `2^63`, and at every position the transaction
marks the job complete if and only if `i + 1`, wrapped as an `int`, is `n`. -/
theorem C10_only_nth_rollup_completes {C L J Q : Type} (env : Collaborators C L J Q)
    (jk : Key) (xs : List (Key × namespaceState C L J Q × namespaceState C L J Q))
    (j : jobState C L J Q) (n : Nat) (ha : j.Abort = false)
    (ht : j.NamespacesTotal = n) (hs : j.NamespacesSuccessful = 0) :
    (j.Iterating = false → ∀ (i : Nat) (R : Run C L J Q),
      (completionRuns env jk xs j)[i]? = some R →
      (i + 1 < 9223372036854775808 → (Call.complete jk ∈ R.calls ↔ i + 1 = n)) ∧
      (Call.complete jk ∈ R.calls ↔ wrapInt ((i : Int) + 1) = n)) ∧
    (j.Iterating = true → ∀ (i : Nat) (R : Run C L J Q),
      (completionRuns env jk xs j)[i]? = some R → Call.complete jk ∉ R.calls) := by
  constructor
  · intro hi i R hR
    rw [completionRuns_complete_iff env jk xs j ha i R hR, ht, hs, zero_add]
    refine ⟨?_, ?_⟩
    · intro hb
      rw [wrapInt_of_range _ (by omega) (by omega)]
      constructor
      · rintro ⟨h1, -⟩
        omega
      · intro h1
        exact ⟨by omega, hi⟩
    · constructor
      · rintro ⟨h1, -⟩
        exact h1
      · intro h1
        exact ⟨h1, hi⟩
  · intro hi i R hR
    rw [completionRuns_complete_iff env jk xs j ha i R hR, hi]
    simp

/-- Witness for C10: a job of 2 namespaces whose iterator has finished, and
three completion transactions. -/
theorem C10_only_nth_rollup_completes_witness :
    (demoJob false false 2 0 0).Abort = false ∧
    (demoJob false false 2 0 0).NamespacesTotal = (2 : Nat) ∧
    (demoJob false false 2 0 0).NamespacesSuccessful = 0 ∧
    (((demoJob false false 2 0 0).Iterating = false → ∀ (i : Nat) (R : Run Nat Nat Unit Unit),
      (completionRuns demoOps demoJobKey demoRollups (demoJob false false 2 0 0))[i]? = some R →
      (i + 1 < 9223372036854775808 → (Call.complete demoJobKey ∈ R.calls ↔ i + 1 = 2)) ∧
      (Call.complete demoJobKey ∈ R.calls ↔ wrapInt ((i : Int) + 1) = (2 : Nat))) ∧
    ((demoJob false false 2 0 0).Iterating = true → ∀ (i : Nat) (R : Run Nat Nat Unit Unit),
      (completionRuns demoOps demoJobKey demoRollups (demoJob false false 2 0 0))[i]? = some R →
      Call.complete demoJobKey ∉ R.calls)) :=
  ⟨rfl, rfl, rfl, C10_only_nth_rollup_completes demoOps demoJobKey demoRollups
    (demoJob false false 2 0 0) 2 rfl rfl rfl⟩

/-- The run behind C10 for two namespaces, evaluated: the first completion only
puts, the second calls `complete()` on the job and puts, a third only puts. -/
theorem completionRuns_two_namespaces :
    (completionRuns demoOps demoJobKey demoRollups (demoJob false false 2 0 0)).map
        (fun R => R.calls.filter (fun c => !c.isPut)) =
      [[], [.complete demoJobKey], []] ∧
    (completionRuns demoOps demoJobKey demoRollups (demoJob false true 2 0 0)).map
        (fun R => R.calls.filter (fun c => !c.isPut)) =
      [[], [], []] := ⟨rfl, rfl⟩

/-! ## The counter invariants -/

/-- C9, as stated, fails in each of its three parts.  A fresh job with
`Iterating = true` and all three counters 0 satisfies the invariant; the job
the completion transaction puts has `NamespacesSuccessful = 1` above
`NamespacesTotal = 0`.  A fresh namespace with 3 shards, 3 successes and no
failure satisfies the invariant; when the handler's rolled-up local copy counts
3 successes and 1 failure of 3 shards and `copyFrom` copies the counters, the namespace
the completion transaction puts has
`ShardsSuccessful + ShardsFailed = 4` above `ShardsTotal = 3`.  A fresh namespace
with `ShardsTotal = 5`, `ShardsSuccessful = 3`, `ShardsFailed = 2`
satisfies the invariant; when the handler computed 4 shards, the namespace the
split transaction puts has `ShardsSuccessful + ShardsFailed = 5` above
`ShardsTotal = 4`. -/
theorem C9_counterexample :
    ((demoJob false true 0 0 0).NamespacesSuccessful + (demoJob false true 0 0 0).NamespacesFailed
        ≤ (demoJob false true 0 0 0).NamespacesTotal ∧
      (demoNamespace 3 3 0).ShardsSuccessful + (demoNamespace 3 3 0).ShardsFailed
        ≤ (demoNamespace 3 3 0).ShardsTotal ∧
      ∃ f j', (completeTxn demoOps demoKey demoJobKey (demoNamespace 3 3 0)
          (demoView (demoNamespace 3 3 0) (demoJob false true 0 0 0))).calls =
          [.PutMulti [demoKey, demoJobKey] f j'] ∧
        j'.NamespacesTotal < j'.NamespacesSuccessful + j'.NamespacesFailed) ∧
    ((demoJob false true 2 0 0).NamespacesSuccessful + (demoJob false true 2 0 0).NamespacesFailed
        ≤ (demoJob false true 2 0 0).NamespacesTotal ∧
      (demoNamespace 3 3 0).ShardsSuccessful + (demoNamespace 3 3 0).ShardsFailed
        ≤ (demoNamespace 3 3 0).ShardsTotal ∧
      ∃ f j', (completeTxn demoOps demoKey demoJobKey (demoNamespace 3 3 1)
          (demoView (demoNamespace 3 3 0) (demoJob false true 2 0 0))).calls =
          [.PutMulti [demoKey, demoJobKey] f j'] ∧
        f.ShardsTotal < f.ShardsSuccessful + f.ShardsFailed) ∧
    ((demoNamespace 5 3 2).ShardsSuccessful + (demoNamespace 5 3 2).ShardsFailed
        ≤ (demoNamespace 5 3 2).ShardsTotal ∧
      ∃ e, (splitTxn demoOps demoKey "default" (demoNamespace 4 0 0)
          (demoView (demoNamespace 5 3 2) (demoJob false true 0 0 0))).calls =
          [.Put demoKey e] ∧
        e.ShardsTotal < e.ShardsSuccessful + e.ShardsFailed) :=
  ⟨⟨by decide, by decide, _, _, rfl, by decide⟩,
    ⟨by decide, by decide, _, _, rfl, by decide⟩, ⟨by decide, _, rfl, by decide⟩⟩

/-- C9, amended: the namespace the split transaction puts has the fresh
`ShardsSuccessful` and `ShardsFailed` and the computed `ShardsTotal`, so it
satisfies `ShardsSuccessful + ShardsFailed ≤ ShardsTotal` exactly when the
fresh successes and failures do not exceed the computed total.  The job the
completion transaction puts, for a fresh `NamespacesSuccessful` that is an
`int` below the largest, satisfies
`NamespacesSuccessful + NamespacesFailed ≤ NamespacesTotal` exactly when the
fresh job had `NamespacesSuccessful + NamespacesFailed < NamespacesTotal`.  The namespace
the completion transaction puts, when `copyFrom` gives it the three
shard counters of the handler's local state, satisfies
`ShardsSuccessful + ShardsFailed ≤ ShardsTotal` exactly when the local state
does, whatever the fresh state. -/
theorem C9_invariants_after_write {C L J Q : Type} (env : Collaborators C L J Q)
    (k jk : Key) (queue : String) (ns nsc freshS freshC : namespaceState C L J Q)
    (j : jobState C L J Q) (vs vc : View C L J Q)
    (hs : vs.Get k = .ok freshS) (hc : vc.GetMulti [k, jk] = .ok (freshC, j))
    (ha : j.Abort = false) :
    (∀ key e, Call.Put key e ∈ (splitTxn env k queue ns vs).calls →
      (e.ShardsSuccessful + e.ShardsFailed ≤ e.ShardsTotal ↔
        freshS.ShardsSuccessful + freshS.ShardsFailed ≤ ns.ShardsTotal)) ∧
    (∀ keys f j', Call.PutMulti keys f j' ∈ (completeTxn env k jk nsc vc).calls →
      (-9223372036854775808 ≤ j.NamespacesSuccessful →
        j.NamespacesSuccessful < 9223372036854775807 →
        (j'.NamespacesSuccessful + j'.NamespacesFailed ≤ j'.NamespacesTotal ↔
          j.NamespacesSuccessful + j.NamespacesFailed < j.NamespacesTotal)) ∧
      ((∀ a b, (env.copyFrom a b).ShardsTotal = b.ShardsTotal ∧
          (env.copyFrom a b).ShardsSuccessful = b.ShardsSuccessful ∧
          (env.copyFrom a b).ShardsFailed = b.ShardsFailed) →
        (f.ShardsSuccessful + f.ShardsFailed ≤ f.ShardsTotal ↔
          nsc.ShardsSuccessful + nsc.ShardsFailed ≤ nsc.ShardsTotal))) := by
  constructor
  · intro key e he
    obtain ⟨-, hcase⟩ := splitTxn_put env k queue ns freshS vs hs key e he
    rcases hcase with ⟨-, rfl⟩ | ⟨-, rfl⟩ <;> exact Iff.rfl
  · intro keys f j' hp
    rw [completeTxn_calls env k jk nsc freshC j vc hc ha, rollupJob_calls] at hp
    have h1 : f = env.copyFrom freshC nsc ∧ j' = (rollupJob env jk nsc j).1 := by
      split_ifs at hp <;> simp at hp <;> exact ⟨hp.2.1, hp.2.2⟩
    obtain ⟨rfl, rfl⟩ := h1
    obtain ⟨f1, f2, f3, -, -⟩ := rollupJob_fields env jk nsc j
    refine ⟨?_, ?_⟩
    · intro hlo hhi
      rw [f1, f2, f3, wrapInt_of_range _ (by omega) (by omega)]
      constructor <;> (intro h; omega)
    · intro hcopy
      obtain ⟨c1, c2, c3⟩ := hcopy freshC nsc
      rw [c1, c2, c3]

/-- Witness for C9, amended: a fresh namespace with 2 successes and 1 failure
when 5 shards are computed, and a fresh job with 1 of 3 namespaces done, whose
completion transaction puts the namespace `copyFrom` made of a local copy with
3 of 3 shards succeeded. -/
theorem C9_invariants_after_write_witness :
    (demoView (demoNamespace 0 2 1) (demoJob false true 3 1 0)).Get demoKey
        = .ok (demoNamespace 0 2 1) ∧
    (demoView (demoNamespace 0 2 1) (demoJob false true 3 1 0)).GetMulti
        [demoKey, demoJobKey] = .ok (demoNamespace 0 2 1, demoJob false true 3 1 0) ∧
    (demoJob false true 3 1 0).Abort = false ∧
    (∀ key e, Call.Put key e ∈ (splitTxn demoOps demoKey "default"
        (demoNamespace 5 0 0)
        (demoView (demoNamespace 0 2 1) (demoJob false true 3 1 0))).calls →
      (e.ShardsSuccessful + e.ShardsFailed ≤ e.ShardsTotal ↔
        (demoNamespace 0 2 1).ShardsSuccessful + (demoNamespace 0 2 1).ShardsFailed
          ≤ (demoNamespace 5 0 0).ShardsTotal)) ∧
    Call.PutMulti [demoKey, demoJobKey] (demoNamespace 3 3 0)
        { demoJob false true 3 2 0 with common := 1 } ∈
      (completeTxn demoOps demoKey demoJobKey (demoNamespace 3 3 0)
        (demoView (demoNamespace 0 2 1) (demoJob false true 3 1 0))).calls ∧
    (({ demoJob false true 3 2 0 with common := 1 } :
          jobState Nat Nat Unit Unit).NamespacesSuccessful +
        ({ demoJob false true 3 2 0 with common := 1 } :
          jobState Nat Nat Unit Unit).NamespacesFailed ≤
        ({ demoJob false true 3 2 0 with common := 1 } :
          jobState Nat Nat Unit Unit).NamespacesTotal ↔
      (demoJob false true 3 1 0).NamespacesSuccessful +
        (demoJob false true 3 1 0).NamespacesFailed
        < (demoJob false true 3 1 0).NamespacesTotal) ∧
    ((demoNamespace 3 3 0).ShardsSuccessful + (demoNamespace 3 3 0).ShardsFailed
        ≤ (demoNamespace 3 3 0).ShardsTotal ↔
      (demoNamespace 3 3 0).ShardsSuccessful + (demoNamespace 3 3 0).ShardsFailed
        ≤ (demoNamespace 3 3 0).ShardsTotal) :=
  ⟨rfl, rfl, rfl,
    (C9_invariants_after_write demoOps demoKey demoJobKey "default"
      (demoNamespace 5 0 0) (demoNamespace 3 3 0) (demoNamespace 0 2 1) (demoNamespace 0 2 1)
      (demoJob false true 3 1 0)
      (demoView (demoNamespace 0 2 1) (demoJob false true 3 1 0))
      (demoView (demoNamespace 0 2 1) (demoJob false true 3 1 0)) rfl rfl rfl).1,
    List.mem_singleton.2 rfl,
    ((C9_invariants_after_write demoOps demoKey demoJobKey "default"
      (demoNamespace 5 0 0) (demoNamespace 3 3 0) (demoNamespace 0 2 1) (demoNamespace 0 2 1)
      (demoJob false true 3 1 0)
      (demoView (demoNamespace 0 2 1) (demoJob false true 3 1 0))
      (demoView (demoNamespace 0 2 1) (demoJob false true 3 1 0)) rfl rfl rfl).2
      [demoKey, demoJobKey] (demoNamespace 3 3 0) { demoJob false true 3 2 0 with common := 1 }
      (List.mem_singleton.2 rfl)).1 (by decide) (by decide),
    ((C9_invariants_after_write demoOps demoKey demoJobKey "default"
      (demoNamespace 5 0 0) (demoNamespace 3 3 0) (demoNamespace 0 2 1) (demoNamespace 0 2 1)
      (demoJob false true 3 1 0)
      (demoView (demoNamespace 0 2 1) (demoJob false true 3 1 0))
      (demoView (demoNamespace 0 2 1) (demoJob false true 3 1 0)) rfl rfl rfl).2
      [demoKey, demoJobKey] (demoNamespace 3 3 0) { demoJob false true 3 2 0 with common := 1 }
      (List.mem_singleton.2 rfl)).2 (fun _ _ => ⟨rfl, rfl, rfl⟩)⟩

/-- The completion closure on a fresh job with 1 of 3 namespaces done, evaluated: the
bounds on the fresh `NamespacesSuccessful` hold, `copyFrom` copies the three
shard counters, and the invariants hold of the entities put. -/
theorem completeTxn_invariants_evaluated :
    (-9223372036854775808 ≤ (demoJob false true 3 1 0).NamespacesSuccessful ∧
      (demoJob false true 3 1 0).NamespacesSuccessful < 9223372036854775807) ∧
    (∀ a b, (demoOps.copyFrom a b).ShardsTotal = b.ShardsTotal ∧
      (demoOps.copyFrom a b).ShardsSuccessful = b.ShardsSuccessful ∧
      (demoOps.copyFrom a b).ShardsFailed = b.ShardsFailed) ∧
    (completeTxn demoOps demoKey demoJobKey (demoNamespace 3 3 0)
        (demoView (demoNamespace 0 2 1) (demoJob false true 3 1 0))).calls =
      [.PutMulti [demoKey, demoJobKey]
        { demoNamespace 3 3 0 with lock := ⟨"req-ns", 7⟩ }
        { demoJob false true 3 2 0 with common := 1 }] :=
  ⟨⟨by decide, by decide⟩, fun _ _ => ⟨rfl, rfl, rfl⟩, rfl⟩

/-! ## The handlers -/

/-- C4: in both handlers, when `GetLock` fails for the delivered sequence the
handler returns at once: for a `LockError` the status is the error's `Response`
and the body its message, for any other error the status is 500 and the body the
error's text; the handler makes no call at all (no split or rollup, no write,
no task, no `ClearLock`) and commits nothing. -/
theorem C4_lock_failure_returns_at_once {C L J Q : Type} (env : Collaborators C L J Q)
    (r : Request) (id : String) (seq : Int) (queue : String) (perr : Option Error)
    (err : Error) (hm : r.Method = "POST")
    (hp : env.ParseLock r = (id, seq, queue, perr))
    (hg : env.GetLock (NewKey (env.config.DatastorePrefix ++ env.config.namespaceKind) id) seq
      = .error err) :
    namespaceHandler env r =
      ⟨some (match err with
          | .LockError Response _ => Response
          | .other _ => StatusInternalServerError), err.Error, [], []⟩ ∧
    namespaceCompleteHandler env r =
      ⟨some (match err with
          | .LockError Response _ => Response
          | .other _ => StatusInternalServerError), err.Error, [], []⟩ := by
  constructor
  · simp only [namespaceHandler, hm, hp, hg, ne_eq, not_true_eq_false, if_false]
    cases err <;> rfl
  · simp only [namespaceCompleteHandler, hm, hp, hg, ne_eq, not_true_eq_false, if_false]
    cases err <;> rfl

/-- Witness for C4: a delivery whose sequence is stale, answered by the lock
protocol with a `LockError` of response code 409. -/
theorem C4_lock_failure_returns_at_once_witness :
    demoRequest.Method = "POST" ∧
    (demoEnv (.error (.LockError 409 "stale sequence")) (.ok (demoJob false true 0 0 0))
        none []).ParseLock demoRequest = ("job1/ns1", 3, "default", none) ∧
    (demoEnv (.error (.LockError 409 "stale sequence")) (.ok (demoJob false true 0 0 0))
        none []).GetLock (NewKey (demoConfig.DatastorePrefix ++ demoConfig.namespaceKind)
          "job1/ns1") 3 = .error (.LockError 409 "stale sequence") ∧
    namespaceHandler (demoEnv (.error (.LockError 409 "stale sequence"))
        (.ok (demoJob false true 0 0 0)) none []) demoRequest =
      ⟨some 409, "stale sequence", [], []⟩ ∧
    namespaceCompleteHandler (demoEnv (.error (.LockError 409 "stale sequence"))
        (.ok (demoJob false true 0 0 0)) none []) demoRequest =
      ⟨some 409, "stale sequence", [], []⟩ :=
  ⟨rfl, rfl, rfl, C4_lock_failure_returns_at_once
    (demoEnv (.error (.LockError 409 "stale sequence")) (.ok (demoJob false true 0 0 0))
      none []) demoRequest "job1/ns1" 3 "default" none (.LockError 409 "stale sequence")
    rfl rfl rfl⟩

/-- C3, as stated, fails: the job read at the entry of
`namespaceCompleteHandler` is not aborted, the only attempt of the transaction
re-reads it with `Abort = true` and the closure returns `nil` without any call,
but the commit of the attempt fails; the handler answers 500 with the error's
text and calls `ClearLock` with `success = false`. -/
theorem C3_counterexample :
    demoViewAbortedCommitFails.GetMulti [demoKey, demoJobKey]
      = .ok (demoNamespace 3 3 0, demoJob true false 2 0 0) ∧
    (demoJob true false 2 0 0).Abort = true ∧
    completeTxn demoEnvAbortedCommitFails demoKey demoJobKey
        (completeLocal demoEnvAbortedCommitFails (demoLocal (demoJob false false 2 0 0)))
        demoViewAbortedCommitFails = ⟨none, []⟩ ∧
    namespaceCompleteHandler demoEnvAbortedCommitFails demoRequest =
      ⟨some 500, "datastore: timeout",
        [.rollup (demoLocal (demoJob false false 2 0 0)),
         .complete demoKey,
         .ClearLock demoKey
          (completeLocal demoEnvAbortedCommitFails (demoLocal (demoJob false false 2 0 0)))
          false], []⟩ :=
  ⟨rfl, rfl, rfl, rfl⟩

/-- C3, amended: in both handlers, when the lock is valid and the job read at
handler entry has `Abort = true`, the handler answers 200 with an empty body,
makes no call (no write, no task, no `ClearLock`) and commits nothing.  In
`namespaceCompleteHandler`, when an attempt of the transaction re-reads the job
with `Abort = true`, the closure returns `nil` without any call; when that
attempt commits (the attempts before it having failed), the handler answers 200
with an empty body, commits nothing and never calls `ClearLock`. -/
theorem C3_abort_acknowledged_without_change {C L J Q : Type}
    (env : Collaborators C L J Q) (r : Request) (id : String) (seq : Int) (queue : String)
    (perr : Option Error) (ns : namespaceState C L J Q) (j : jobState C L J Q)
    (hm : r.Method = "POST") (hp : env.ParseLock r = (id, seq, queue, perr))
    (hg : env.GetLock (NewKey (env.config.DatastorePrefix ++ env.config.namespaceKind) id) seq
      = .ok ns)
    (hj : getJob env (env.jobID { ns with id := id, queue := queue }) = .ok j) :
    (j.Abort = true →
      namespaceHandler env r = ⟨some StatusOK, "", [], []⟩ ∧
      namespaceCompleteHandler env r = ⟨some StatusOK, "", [], []⟩) ∧
    (j.Abort = false →
      ∀ (ns1 fresh : namespaceState C L J Q) (j2 : jobState C L J Q)
        (pre : List (View C L J Q)) (v : View C L J Q) (rest : List (View C L J Q)),
      env.rollup { ns with id := id, queue := queue, job := some j } = (ns1, none) →
      env.attempts = pre ++ v :: rest →
      (∀ u ∈ pre, attemptFailure (completeTxn env
        (NewKey (env.config.DatastorePrefix ++ env.config.namespaceKind) id)
        (NewKey (env.config.DatastorePrefix ++ jobKind) (env.jobID (completeLocal env ns1)))
        (completeLocal env ns1) u) u ≠ none) →
      v.GetMulti [NewKey (env.config.DatastorePrefix ++ env.config.namespaceKind) id,
        NewKey (env.config.DatastorePrefix ++ jobKind) (env.jobID (completeLocal env ns1))]
        = .ok (fresh, j2) →
      j2.Abort = true → v.commit = none →
      completeTxn env (NewKey (env.config.DatastorePrefix ++ env.config.namespaceKind) id)
        (NewKey (env.config.DatastorePrefix ++ jobKind) (env.jobID (completeLocal env ns1)))
        (completeLocal env ns1) v = ⟨none, []⟩ ∧
      (namespaceCompleteHandler env r).status = some StatusOK ∧
      (namespaceCompleteHandler env r).body = "" ∧
      (namespaceCompleteHandler env r).committed = [] ∧
      ∀ c ∈ (namespaceCompleteHandler env r).calls, c.isClearLock = false) := by
  constructor
  · intro ha
    constructor
    · simp only [namespaceHandler, hm, hp, hg, hj, ha, ne_eq, not_true_eq_false, if_false,
        if_true]
    · simp only [namespaceCompleteHandler, hm, hp, hg, hj, ha, ne_eq, not_true_eq_false,
        if_false, if_true]
  · intro ha ns1 fresh j2 pre v rest hr hatt hpre hv ha2 hcommit
    have hrun := completeTxn_of_abort env _ _ (completeLocal env ns1) fresh j2 v hv ha2
    have hfail : attemptFailure (completeTxn env
        (NewKey (env.config.DatastorePrefix ++ env.config.namespaceKind) id)
        (NewKey (env.config.DatastorePrefix ++ jobKind) (env.jobID (completeLocal env ns1)))
        (completeLocal env ns1) v) v = none := by
      rw [hrun]
      exact hcommit
    obtain ⟨t1, t2⟩ := RunInTransaction_of_commit _ pre v rest hpre hfail
    rw [← hatt] at t1 t2
    rw [hrun] at t2
    refine ⟨hrun, ?_⟩
    simp only [namespaceCompleteHandler, hm, hp, hg, hj, ha, hr, t1, t2, ne_eq,
      not_true_eq_false, if_false, Bool.false_eq_true, true_and]
    intro c hc
    simp only [List.cons_append, List.nil_append, List.mem_cons] at hc
    rcases hc with rfl | rfl | hc
    · rfl
    · rfl
    · obtain ⟨u, -, hu⟩ := RunInTransaction_calls_mem _ _ c hc
      exact completeTxn_no_ClearLock env _ _ _ u c hu

/-- Witness for C3, amended: a delivery for an aborted job, and a delivery whose job is
aborted between the handler's entry and the second attempt of the completion
transaction. -/
theorem C3_abort_acknowledged_without_change_witness :
    (namespaceHandler demoEnvAborted demoRequest = ⟨some StatusOK, "", [], []⟩ ∧
      namespaceCompleteHandler demoEnvAborted demoRequest = ⟨some StatusOK, "", [], []⟩) ∧
    (completeTxn demoEnvAbortedInTxn demoKey demoJobKey
        (completeLocal demoEnvAbortedInTxn (demoLocal (demoJob false false 2 0 0)))
        (demoView (demoNamespace 3 3 0) (demoJob true false 2 0 0)) = ⟨none, []⟩ ∧
      (namespaceCompleteHandler demoEnvAbortedInTxn demoRequest).status = some StatusOK ∧
      (namespaceCompleteHandler demoEnvAbortedInTxn demoRequest).body = "" ∧
      (namespaceCompleteHandler demoEnvAbortedInTxn demoRequest).committed = [] ∧
      ∀ c ∈ (namespaceCompleteHandler demoEnvAbortedInTxn demoRequest).calls,
        c.isClearLock = false) :=
  ⟨(C3_abort_acknowledged_without_change demoEnvAborted demoRequest "job1/ns1" 3 "default"
      none (demoNamespace 3 3 0) (demoJob true false 2 0 0) rfl rfl rfl rfl).1 rfl,
    (C3_abort_acknowledged_without_change demoEnvAbortedInTxn demoRequest "job1/ns1" 3
      "default" none (demoNamespace 3 3 0) (demoJob false false 2 0 0) rfl rfl rfl rfl).2 rfl
      (demoLocal (demoJob false false 2 0 0)) (demoNamespace 3 3 0) (demoJob true false 2 0 0)
      [demoViewPutMultiFails (demoNamespace 3 3 0) (demoJob false false 2 0 0)]
      (demoView (demoNamespace 3 3 0) (demoJob true false 2 0 0)) [] rfl rfl
      (by
        intro u hu
        rw [List.mem_singleton] at hu
        subst hu
        decide)
      rfl rfl rfl⟩

/-- C5, as stated, fails.  When `GetLock` fails, both handlers answer 500 and
return without any call: `ClearLock` is not called.  And the error returned by
`ParseLock` is discarded: with such an error and every later step succeeding,
both handlers answer 200 and never call `ClearLock`. -/
theorem C5_counterexample :
    (namespaceHandler (demoEnv (.error (.other "datastore: timeout"))
        (.ok (demoJob false true 0 0 0)) none []) demoRequest =
      ⟨some 500, "datastore: timeout", [], []⟩ ∧
    namespaceCompleteHandler (demoEnv (.error (.other "datastore: timeout"))
        (.ok (demoJob false true 0 0 0)) none []) demoRequest =
      ⟨some 500, "datastore: timeout", [], []⟩) ∧
    ((demoEnvBadHeader.ParseLock demoRequest).2.2.2 = some (.other "missing queue header") ∧
    (namespaceHandler demoEnvBadHeader demoRequest).status = some 200 ∧
    (namespaceHandler demoEnvBadHeader demoRequest).calls.filter Call.isClearLock = [] ∧
    (namespaceCompleteHandler demoEnvBadHeader demoRequest).status = some 200 ∧
    (namespaceCompleteHandler demoEnvBadHeader demoRequest).calls.filter Call.isClearLock
      = []) :=
  ⟨⟨rfl, rfl⟩, rfl, rfl, rfl, rfl, rfl⟩

/-- C5, amended: in both handlers, once the lock is valid, an error of the job
lookup, of `split` or `rollup`, or of the transaction is answered with status
500 and the error's text as the body, nothing is committed, and the last call
of the handler is `ClearLock` on the namespace key with the handler's local namespace
state and `success = false`; it is the only `ClearLock` of the run.
(An error of `GetLock` is answered without `ClearLock`, and the error of
`ParseLock` is discarded.) -/
theorem C5_errors_after_lock_clear_the_lock {C L J Q : Type}
    (env : Collaborators C L J Q) (r : Request) (id : String) (seq : Int) (queue : String)
    (perr : Option Error) (ns : namespaceState C L J Q)
    (hm : r.Method = "POST") (hp : env.ParseLock r = (id, seq, queue, perr))
    (hg : env.GetLock (NewKey (env.config.DatastorePrefix ++ env.config.namespaceKind) id) seq
      = .ok ns) :
    (∀ err, getJob env (env.jobID { ns with id := id, queue := queue }) = .error err →
      namespaceHandler env r =
        ⟨some StatusInternalServerError, err.Error,
          [.ClearLock (NewKey (env.config.DatastorePrefix ++ env.config.namespaceKind) id)
            { ns with id := id, queue := queue } false], []⟩ ∧
      namespaceCompleteHandler env r =
        ⟨some StatusInternalServerError, err.Error,
          [.ClearLock (NewKey (env.config.DatastorePrefix ++ env.config.namespaceKind) id)
            { ns with id := id, queue := queue } false], []⟩) ∧
    (∀ j, getJob env (env.jobID { ns with id := id, queue := queue }) = .ok j →
      j.Abort = false →
      (∀ ns1 err,
        env.split { ns with id := id, queue := queue, job := some j } = (ns1, some err) →
        namespaceHandler env r =
          ⟨some StatusInternalServerError, err.Error,
            [.split { ns with id := id, queue := queue, job := some j },
             .ClearLock (NewKey (env.config.DatastorePrefix ++ env.config.namespaceKind) id)
              ns1 false], []⟩) ∧
      (∀ ns1 err,
        env.rollup { ns with id := id, queue := queue, job := some j } = (ns1, some err) →
        namespaceCompleteHandler env r =
          ⟨some StatusInternalServerError, err.Error,
            [.rollup { ns with id := id, queue := queue, job := some j },
             .ClearLock (NewKey (env.config.DatastorePrefix ++ env.config.namespaceKind) id)
              ns1 false], []⟩) ∧
      (∀ ns1 err,
        env.split { ns with id := id, queue := queue, job := some j } = (ns1, none) →
        (RunInTransaction (splitTxn env
          (NewKey (env.config.DatastorePrefix ++ env.config.namespaceKind) id) queue ns1)
          env.attempts).err = some err →
        (namespaceHandler env r).status = some StatusInternalServerError ∧
        (namespaceHandler env r).body = err.Error ∧
        (namespaceHandler env r).committed = [] ∧
        (namespaceHandler env r).calls.getLast? = some
          (.ClearLock (NewKey (env.config.DatastorePrefix ++ env.config.namespaceKind) id)
            ns1 false) ∧
        (namespaceHandler env r).calls.filter Call.isClearLock =
          [.ClearLock (NewKey (env.config.DatastorePrefix ++ env.config.namespaceKind) id)
            ns1 false]) ∧
      (∀ ns1 err,
        env.rollup { ns with id := id, queue := queue, job := some j } = (ns1, none) →
        (RunInTransaction (completeTxn env
          (NewKey (env.config.DatastorePrefix ++ env.config.namespaceKind) id)
          (NewKey (env.config.DatastorePrefix ++ jobKind) (env.jobID (completeLocal env ns1)))
          (completeLocal env ns1)) env.attempts).err = some err →
        (namespaceCompleteHandler env r).status = some StatusInternalServerError ∧
        (namespaceCompleteHandler env r).body = err.Error ∧
        (namespaceCompleteHandler env r).committed = [] ∧
        (namespaceCompleteHandler env r).calls.getLast? = some
          (.ClearLock (NewKey (env.config.DatastorePrefix ++ env.config.namespaceKind) id)
            (completeLocal env ns1) false) ∧
        (namespaceCompleteHandler env r).calls.filter Call.isClearLock =
          [.ClearLock (NewKey (env.config.DatastorePrefix ++ env.config.namespaceKind) id)
            (completeLocal env ns1) false])) := by
  refine ⟨?_, ?_⟩
  · intro err hj
    constructor
    · simp only [namespaceHandler, hm, hp, hg, hj, ne_eq, not_true_eq_false, if_false]
    · simp only [namespaceCompleteHandler, hm, hp, hg, hj, ne_eq, not_true_eq_false, if_false]
  · intro j hj ha
    refine ⟨?_, ?_, ?_, ?_⟩
    · intro ns1 err hs
      simp only [namespaceHandler, hm, hp, hg, hj, ha, hs, ne_eq, not_true_eq_false, if_false,
        Bool.false_eq_true]
    · intro ns1 err hs
      simp only [namespaceCompleteHandler, hm, hp, hg, hj, ha, hs, ne_eq, not_true_eq_false,
        if_false, Bool.false_eq_true]
    · intro ns1 err hs ht
      have hf := RunInTransaction_splitTxn_filter env
        (NewKey (env.config.DatastorePrefix ++ env.config.namespaceKind) id) queue ns1
        env.attempts
      simp only [namespaceHandler, hm, hp, hg, hj, ha, hs, ht, ne_eq, not_true_eq_false,
        if_false, Bool.false_eq_true, List.getLast?_concat, List.filter_append, hf, true_and]
      rfl
    · intro ns1 err hs ht
      have hf := RunInTransaction_completeTxn_filter env
        (NewKey (env.config.DatastorePrefix ++ env.config.namespaceKind) id)
        (NewKey (env.config.DatastorePrefix ++ jobKind) (env.jobID (completeLocal env ns1)))
        (completeLocal env ns1) env.attempts
      simp only [namespaceCompleteHandler, hm, hp, hg, hj, ha, hs, ht, ne_eq,
        not_true_eq_false, if_false, Bool.false_eq_true, List.getLast?_concat,
        List.filter_append, hf, true_and]
      rfl

/-- Witness for C5, amended: a failed job lookup, a failed `split` and
`rollup`, and a transaction whose only attempt fails at its commit. -/
theorem C5_errors_after_lock_clear_the_lock_witness :
    (namespaceHandler demoEnvJobMissing demoRequest =
        ⟨some 500, "datastore: no such entity", [.ClearLock demoKey demoDelivered false], []⟩ ∧
      namespaceCompleteHandler demoEnvJobMissing demoRequest =
        ⟨some 500, "datastore: no such entity", [.ClearLock demoKey demoDelivered false], []⟩) ∧
    namespaceHandler demoEnvWorkFails demoRequest =
      ⟨some 500, "split failed",
        [.split (demoLocal (demoJob false true 0 0 0)),
         .ClearLock demoKey { demoLocal (demoJob false true 0 0 0) with ShardsTotal := 5 } false],
        []⟩ ∧
    namespaceCompleteHandler demoEnvWorkFails demoRequest =
      ⟨some 500, "split failed",
        [.rollup (demoLocal (demoJob false true 0 0 0)),
         .ClearLock demoKey (demoLocal (demoJob false true 0 0 0)) false], []⟩ ∧
    ((namespaceHandler demoEnvCommitFails demoRequest).status = some 500 ∧
      (namespaceHandler demoEnvCommitFails demoRequest).body = "datastore: timeout" ∧
      (namespaceHandler demoEnvCommitFails demoRequest).committed = [] ∧
      (namespaceHandler demoEnvCommitFails demoRequest).calls.getLast? = some
        (.ClearLock demoKey { demoLocal (demoJob false true 0 0 0) with ShardsTotal := 5 }
          false) ∧
      (namespaceHandler demoEnvCommitFails demoRequest).calls.filter Call.isClearLock =
        [.ClearLock demoKey { demoLocal (demoJob false true 0 0 0) with ShardsTotal := 5 }
          false]) ∧
    ((namespaceCompleteHandler demoEnvCommitFails demoRequest).status = some 500 ∧
      (namespaceCompleteHandler demoEnvCommitFails demoRequest).body = "datastore: timeout" ∧
      (namespaceCompleteHandler demoEnvCommitFails demoRequest).committed = [] ∧
      (namespaceCompleteHandler demoEnvCommitFails demoRequest).calls.getLast? = some
        (.ClearLock demoKey
          (completeLocal demoEnvCommitFails (demoLocal (demoJob false true 0 0 0))) false) ∧
      (namespaceCompleteHandler demoEnvCommitFails demoRequest).calls.filter
          Call.isClearLock =
        [.ClearLock demoKey
          (completeLocal demoEnvCommitFails (demoLocal (demoJob false true 0 0 0))) false]) :=
  ⟨(C5_errors_after_lock_clear_the_lock demoEnvJobMissing demoRequest "job1/ns1" 3 "default"
      none (demoNamespace 3 3 0) rfl rfl rfl).1 (.other "datastore: no such entity") rfl,
    ((C5_errors_after_lock_clear_the_lock demoEnvWorkFails demoRequest "job1/ns1" 3 "default"
      none (demoNamespace 3 3 0) rfl rfl rfl).2 (demoJob false true 0 0 0) rfl rfl).1
      { demoLocal (demoJob false true 0 0 0) with ShardsTotal := 5 } (.other "split failed") rfl,
    ((C5_errors_after_lock_clear_the_lock demoEnvWorkFails demoRequest "job1/ns1" 3 "default"
      none (demoNamespace 3 3 0) rfl rfl rfl).2 (demoJob false true 0 0 0) rfl rfl).2.1
      (demoLocal (demoJob false true 0 0 0)) (.other "split failed") rfl,
    ((C5_errors_after_lock_clear_the_lock demoEnvCommitFails demoRequest "job1/ns1" 3 "default"
      none (demoNamespace 3 3 0) rfl rfl rfl).2 (demoJob false true 0 0 0) rfl rfl).2.2.1
      { demoLocal (demoJob false true 0 0 0) with ShardsTotal := 5 }
      (.other "datastore: timeout") rfl rfl,
    ((C5_errors_after_lock_clear_the_lock demoEnvCommitFails demoRequest "job1/ns1" 3 "default"
      none (demoNamespace 3 3 0) rfl rfl rfl).2 (demoJob false true 0 0 0) rfl rfl).2.2.2
      (demoLocal (demoJob false true 0 0 0)) (.other "datastore: timeout") rfl rfl⟩

end Mapper
